import Mathlib

/-!
Shallow embedding of `src/eelib/utils/simulation_helper.py` (the topology
resolution and connection planner of the eELib simulation setup) together
with proofs about its behaviour.

Modelling conventions:
* Python values appearing in connection-attribute configurations are embedded
  as `PyVal` (strings, ints, tuples, lists).
* Python exceptions are embedded as `PyErr`; fallible code returns
  `Except PyErr _`.
* The mosaik `world` object is modelled by the state `SimState`: every call of
  `world.connect` appends one `Edge` record, every call of
  `add_controlled_entity` appends one triple to `controlled`, every call of
  `add_forecasted_entity` appends one pair to `forecasted`.  The state is
  threaded as the last argument of each embedded function.
* Python dicts are embedded as insertion-ordered association lists; indexing a
  missing key raises `PyErr.keyError`.
-/

set_option autoImplicit false

/-- Embedded Python value as it occurs in connection configurations. -/
inductive PyVal where
  | vstr (s : String)
  | vint (n : Int)
  | vtuple (elems : List PyVal)
  | vlist (elems : List PyVal)

/-- Embedded Python exception classes raised by the helper module. -/
inductive PyErr where
  | typeError
  | valueError
  | indexError
  | keyError (k : String)
  | nameError
deriving DecidableEq, Repr

/-- Seed value stored in the `initial_data` of a weak edge: the planner seeds
either the integer `0` or an empty dict. -/
inductive SeedVal where
  | zero
  | emptyDict
deriving DecidableEq, Repr

/-- A mosaik model entity: `eid`, `full_id`, `type` and owning simulator name. -/
structure Entity where
  eid : String
  full_id : String
  type : String
  sim_name : String
deriving DecidableEq, Repr

/-- The descriptor dict `{eid, full_id, type}` built by `get_entity_by_id`. -/
structure EntDescr where
  eid : String
  full_id : String
  type : String
deriving DecidableEq, Repr

/-- One directed mosaik dataflow edge as registered by `world.connect`:
source and destination entity `full_id`s, the attribute arguments, the `weak`
flag, and the `initial_data` mapping (attribute name to per-entity seeds). -/
structure Edge where
  src : String
  dst : String
  attrs : List PyVal
  weak : Bool
  initial_data : List (String × List (String × SeedVal))

/-- The observable state of the external simulation world: the edges connected
so far, the controlled-entity registrations (controller eid, subordinate eid,
descriptor) and the forecast-subject registrations (forecast eid, entity
full_id). -/
structure SimState where
  edges : List Edge
  controlled : List (String × String × EntDescr)
  forecasted : List (String × String)

/-- The empty world: no edges, no registrations. -/
def SimState.empty : SimState := ⟨[], [], []⟩

/-- Does the pattern occur at the head of the character list? -/
def leadMatch : List Char → List Char → Bool
  | [], _ => true
  | _ :: _, [] => false
  | p :: ps, c :: cs => p == c && leadMatch ps cs

/-- Does the pattern occur anywhere in the character list? -/
def subOccurs (pat : List Char) : List Char → Bool
  | [] => leadMatch pat []
  | c :: cs => leadMatch pat (c :: cs) || subOccurs pat cs

/-- Embedding of Python's substring test `pat in s`. -/
def strIn (pat s : String) : Bool := subOccurs pat.data s.data

/-- Embedding of Python's `str.lower()`. -/
def pyLower (s : String) : String := ⟨s.data.map Char.toLower⟩

/-- Embedding of Python dict indexing `d[k]` on an association list: the value
of the first matching key, a `KeyError` otherwise. -/
def pyDictGet {α : Type} (d : List (String × α)) (k : String) : Except PyErr α :=
  match d.find? (fun p => p.1 == k) with
  | some p => Except.ok p.2
  | none => Except.error (PyErr.keyError k)

/-- Embedding of Python dict assignment `d[k] = v`: overwrite the value in
place if the key exists, otherwise append the new binding. -/
def dictSet {α : Type} (d : List (String × α)) (k : String) (v : α) : List (String × α) :=
  if d.any (fun p => p.1 == k) then d.map (fun p => if p.1 == k then (k, v) else p)
  else d ++ [(k, v)]

/-- Embedding of a Python `for` loop over `l` mutating state `σ`, where the
body may raise: the first raised exception aborts the loop. -/
def exceptFold {σ α : Type} (f : σ → α → Except PyErr σ) : σ → List α → Except PyErr σ
  | s, [] => Except.ok s
  | s, x :: xs =>
    match f s x with
    | Except.ok s' => exceptFold f s' xs
    | Except.error e => Except.error e

/-- Embedding of `dict_simulators[k]` where only key presence matters for the
embedded behaviour: `dict_simulators` is modelled by its key list. -/
def simLookup (dict_simulators : List String) (k : String) : Except PyErr Unit :=
  if dict_simulators.contains k then Except.ok () else Except.error (PyErr.keyError k)

/-- Embedding of `get_entity_by_id`: linear scan for the first entity with the
given `eid`; returns the entity together with its descriptor dict, or nothing
(the Python `(None, None)`). -/
def get_entity_by_id (e_list : List Entity) (e_id : String) : Option (Entity × EntDescr) :=
  match e_list.find? (fun entity => entity.eid == e_id) with
  | some entity => some (entity, ⟨entity.eid, entity.full_id, entity.type⟩)
  | none => none

/-- Embedding of `get_entity_by_id_from_dict_list`: scan the typed collections
in insertion order and return the first hit. -/
def get_entity_by_id_from_dict_list (e_dict_list : List (String × List Entity))
    (e_id : String) : Option (Entity × EntDescr) :=
  match e_dict_list with
  | [] => none
  | (_, e_list) :: rest =>
    match get_entity_by_id e_list e_id with
    | some r => some r
    | none => get_entity_by_id_from_dict_list rest e_id

/-- Check of a single element of a connection configuration, mirroring the body
of the loop in `check_model_connect_config`: a string passes, a tuple is
indexed at positions 0 and 1 (an out-of-range index raises `IndexError`, Python
evaluates `elem[0]` first and short-circuits the `or`), anything else raises
`TypeError`. -/
def checkElem (elem_connect : PyVal) : Except PyErr Unit :=
  match elem_connect with
  | PyVal.vstr _ => Except.ok ()
  | PyVal.vtuple elems =>
    match elems.get? 0 with
    | none => Except.error PyErr.indexError
    | some e0 =>
      match e0 with
      | PyVal.vstr _ =>
        match elems.get? 1 with
        | none => Except.error PyErr.indexError
        | some e1 =>
          match e1 with
          | PyVal.vstr _ => Except.ok ()
          | _ => Except.error PyErr.typeError
      | _ => Except.error PyErr.typeError
  | _ => Except.error PyErr.typeError

/-- Embedding of `check_model_connect_config`: a non-list raises `TypeError`,
otherwise every element is checked in order via `checkElem`. -/
def check_model_connect_config (model_connect_config : PyVal) : Except PyErr Unit :=
  match model_connect_config with
  | PyVal.vlist elems => exceptFold (fun _ e => checkElem e) () elems
  | _ => Except.error PyErr.typeError

/-- A model factory: the set of registered model names and the external
`create` call (opaque to the helper module). -/
structure ModelFactory where
  model_names : List String
  create : Nat → List PyVal → List Entity

/-- Embedding of `create_entities_of_model`: `KeyError` if the factory has no
such model, `TypeError` if the init values are not a list, the empty list if
there is nothing to create, otherwise the factory's `create` result. -/
def create_entities_of_model (model_factory : ModelFactory) (model_name : String)
    (init_vals : PyVal) : Except PyErr (List Entity) :=
  if !(model_factory.model_names.contains model_name) then
    Except.error (PyErr.keyError model_name)
  else
    match init_vals with
    | PyVal.vlist l =>
      if l.length = 0 then Except.ok []
      else Except.ok (model_factory.create l.length l)
    | _ => Except.error PyErr.typeError

/-- The `dict_init_data` built inside `connect_entities_of_two_model_types` for
a weak edge: every weak attribute (the bare name, or the first component of a
tuple) is mapped to a dict assigning the seed `0` to the `full_id` of every
entity of the strong-side list. -/
def dict_init_data (model_connect_config_from_weak : List PyVal)
    (entity_list_strong : List Entity) : List (String × List (String × SeedVal)) :=
  model_connect_config_from_weak.foldl (fun d conn_elem =>
    match conn_elem with
    | PyVal.vstr k =>
      dictSet d k (entity_list_strong.map (fun e => (e.full_id, SeedVal.zero)))
    | PyVal.vtuple (PyVal.vstr k :: _) =>
      dictSet d k (entity_list_strong.map (fun e => (e.full_id, SeedVal.zero)))
    | _ => d) []

/-- Body of the double loop of `connect_entities_of_two_model_types` for one
pair `(ent_strong, ent_weak)`: the strong edge, the weak edge when the weak
configuration is non-empty, and the controlled-entity registration when the
weak-side entity belongs to the `EMSSim` simulator. -/
def connectPair (entity_list_strong : List Entity)
    (cfgStrong cfgWeak : List PyVal) (sim_entities_weak : Bool)
    (ent_strong ent_weak : Entity) (s : SimState) : SimState :=
  let s1 : SimState :=
    { s with edges := s.edges ++ [⟨ent_strong.full_id, ent_weak.full_id, cfgStrong, false, []⟩] }
  let s2 : SimState :=
    match cfgWeak with
    | [] => s1
    | _ :: _ =>
      { s1 with edges := s1.edges ++
          [⟨ent_weak.full_id, ent_strong.full_id, cfgWeak, true,
            dict_init_data cfgWeak entity_list_strong⟩] }
  if ent_weak.sim_name == "EMSSim" && sim_entities_weak then
    match get_entity_by_id [ent_strong] ent_strong.eid with
    | some (entity, entity_dict) =>
      { s2 with controlled := s2.controlled ++ [(ent_weak.eid, entity.eid, entity_dict)] }
    | none => s2
  else s2

/-- The double loop of `connect_entities_of_two_model_types` over every
combination of a strong-side and a weak-side entity. -/
def pairLoops (entity_list_strong entity_list_weak : List Entity)
    (cfgStrong cfgWeak : List PyVal) (sim_entities_weak : Bool) (s : SimState) : SimState :=
  entity_list_strong.foldl (fun s1 ent_strong =>
    entity_list_weak.foldl (fun s2 ent_weak =>
      connectPair entity_list_strong cfgStrong cfgWeak sim_entities_weak ent_strong ent_weak s2)
      s1) s

/-- Embedding of `connect_entities_of_two_model_types`.  The mosaik world is
the threaded `SimState` (the Python `hasattr(world, "connect")` check holds by
construction).  Both configurations are validated first; an empty strong
configuration with a non-empty weak configuration raises `ValueError`, an empty
strong configuration with an empty weak configuration is a no-op; otherwise the
double loop over both entity lists runs, followed by the source's trailing log
statement, whose f-string dereferences the loop variables: when either entity
list is empty the loops leave a variable unbound and the function raises an
unbound-variable error (with no edge created, since one side of the double
loop was empty). -/
def connect_entities_of_two_model_types
    (entity_list_strong entity_list_weak : List Entity)
    (model_connect_config_from_strong model_connect_config_from_weak : PyVal)
    (sim_entities_weak : Bool) (s : SimState) : Except PyErr SimState :=
  match check_model_connect_config model_connect_config_from_strong with
  | Except.error e => Except.error e
  | Except.ok _ =>
    match check_model_connect_config model_connect_config_from_weak with
    | Except.error e => Except.error e
    | Except.ok _ =>
      match model_connect_config_from_strong, model_connect_config_from_weak with
      | PyVal.vlist [], PyVal.vlist [] => Except.ok s
      | PyVal.vlist [], PyVal.vlist (_ :: _) => Except.error PyErr.valueError
      | PyVal.vlist (c :: cs), PyVal.vlist cfgWeak =>
        match entity_list_strong, entity_list_weak with
        | _ :: _, _ :: _ =>
          Except.ok (pairLoops entity_list_strong entity_list_weak (c :: cs) cfgWeak
            sim_entities_weak s)
        | _, _ => Except.error PyErr.nameError
      | _, _ => Except.error PyErr.typeError

/-- Role inference of `connect_entities` for one ordered type pair: an
ems-named side becomes the weak side (fetching `dict_simulators["ems"]`), and
with no ems involved, a `charging_station`-named from-side paired with a
`car`-named to-side is swapped so the car side is strong.  Returns
`(sim_entities_weak present, name_from, name_to)`. -/
def infer_roles (dict_simulators : List String)
    (model_name_from model_name_to : String) : Except PyErr (Bool × String × String) :=
  if strIn "ems" model_name_from || strIn "EMS" model_name_from then
    match simLookup dict_simulators "ems" with
    | Except.error e => Except.error e
    | Except.ok _ => Except.ok (true, model_name_to, model_name_from)
  else if strIn "ems" model_name_to || strIn "EMS" model_name_to then
    match simLookup dict_simulators "ems" with
    | Except.error e => Except.error e
    | Except.ok _ => Except.ok (true, model_name_from, model_name_to)
  else if strIn "charging_station" model_name_from && strIn "car" model_name_to then
    Except.ok (false, model_name_to, model_name_from)
  else
    Except.ok (false, model_name_from, model_name_to)

/-- One inner-loop step of `connect_entities` for a pair of distinct type-group
names: infer roles, look up both entity lists and both directions of the
connection configuration, then connect the two groups. -/
def connectInnerStep (dict_entities : List (String × List Entity))
    (model_connect_config : List (String × List (String × PyVal)))
    (dict_simulators : List String)
    (model_name_from model_name_to : String) (s : SimState) : Except PyErr SimState :=
  match infer_roles dict_simulators model_name_from model_name_to with
  | Except.error e => Except.error e
  | Except.ok (sim_entities_weak, name_from, name_to) =>
    match pyDictGet dict_entities name_from with
    | Except.error e => Except.error e
    | Except.ok entity_list_strong =>
      match pyDictGet dict_entities name_to with
      | Except.error e => Except.error e
      | Except.ok entity_list_weak =>
        match pyDictGet model_connect_config name_from with
        | Except.error e => Except.error e
        | Except.ok row_from =>
          match pyDictGet row_from name_to with
          | Except.error e => Except.error e
          | Except.ok cfg_from_strong =>
            match pyDictGet model_connect_config name_to with
            | Except.error e => Except.error e
            | Except.ok row_to =>
              match pyDictGet row_to name_from with
              | Except.error e => Except.error e
              | Except.ok cfg_from_weak =>
                connect_entities_of_two_model_types entity_list_strong entity_list_weak
                  cfg_from_strong cfg_from_weak sim_entities_weak s

/-- One registration of the ems/EV block of `connect_entities`: look the EV
entity up in the `"EV"` collection and register it (via
`dict_simulators["ems"].add_controlled_entity`) as controlled by the ems entity
with the given eid. -/
def evRegStep (dict_simulators : List String) (ev_list : List Entity) (ems_eid : String)
    (s : SimState) (ev_ent : Entity) : Except PyErr SimState :=
  match get_entity_by_id ev_list ev_ent.eid with
  | some (ev_entity, ev_entity_dict) =>
    match simLookup dict_simulators "ems" with
    | Except.error e => Except.error e
    | Except.ok _ =>
      Except.ok { s with controlled :=
        s.controlled ++ [(ems_eid, ev_entity.eid, ev_entity_dict)] }
  | none => Except.error PyErr.typeError

/-- The ems/EV block of `connect_entities` for one ems entity: when an `"EV"`
collection exists, every EV entity is registered as controlled by it. -/
def emsRegStep (dict_entities : List (String × List Entity))
    (dict_simulators : List String) (s : SimState) (ems_ent : Entity) :
    Except PyErr SimState :=
  if (dict_entities.map Prod.fst).contains "EV" then
    match pyDictGet dict_entities "EV" with
    | Except.error e => Except.error e
    | Except.ok ev_list => exceptFold (evRegStep dict_simulators ev_list ems_ent.eid) s ev_list
  else Except.ok s

/-- The trailing block of `connect_entities` for an ems-named type group: every
entity of the `"EV"` collection (when that collection exists) is registered as
a controlled entity of every ems entity. -/
def emsEvBlock (dict_entities : List (String × List Entity))
    (dict_simulators : List String) (model_name_from : String)
    (s : SimState) : Except PyErr SimState :=
  if strIn "ems" model_name_from || strIn "EMS" model_name_from then
    match pyDictGet dict_entities model_name_from with
    | Except.error e => Except.error e
    | Except.ok ems_list =>
      exceptFold (emsRegStep dict_entities dict_simulators) s ems_list
  else Except.ok s

/-- One inner-loop iteration of `connect_entities` with the index guard: pairs
whose inner index does not exceed the outer index are skipped. -/
def connectInnerStepIdx (dict_entities : List (String × List Entity))
    (model_connect_config : List (String × List (String × PyVal)))
    (dict_simulators : List String) (outer : Nat × String)
    (s : SimState) (inner : Nat × String) : Except PyErr SimState :=
  if inner.1 ≤ outer.1 then Except.ok s
  else connectInnerStep dict_entities model_connect_config dict_simulators
    outer.2 inner.2 s

/-- One outer-loop iteration of `connect_entities`: the guarded inner loop over
all type groups followed by the ems/EV registration block. -/
def connectOuterStep (dict_entities : List (String × List Entity))
    (model_connect_config : List (String × List (String × PyVal)))
    (dict_simulators : List String) (keysEnum : List (Nat × String))
    (s : SimState) (outer : Nat × String) : Except PyErr SimState :=
  match exceptFold (connectInnerStepIdx dict_entities model_connect_config dict_simulators outer)
      s keysEnum with
  | Except.error e => Except.error e
  | Except.ok s2 => emsEvBlock dict_entities dict_simulators outer.2 s2

/-- Embedding of `connect_entities`: every unordered pair of type groups is
wired once (the inner index must exceed the outer index), and after each outer
group the ems/EV registration block runs. -/
def connect_entities (dict_entities : List (String × List Entity))
    (model_connect_config : List (String × List (String × PyVal)))
    (dict_simulators : List String) (s : SimState) : Except PyErr SimState :=
  exceptFold (connectOuterStep dict_entities model_connect_config dict_simulators
      ((dict_entities.map Prod.fst).enum))
    s ((dict_entities.map Prod.fst).enum)

/-- One entity iteration of `connect_to_forecast`: an entity of an ems-named
type group (case-insensitive) gets a strong `forecast_request` edge to the
forecast entity and a weak `forecast` edge back seeded with an empty dict keyed
by the forecast entity's `full_id`; any other entity is registered as a
forecast subject after looking up `dict_simulators[model_name]`. -/
def forecastStep (dict_simulators : List String) (forecast : Entity) (model_name : String)
    (s : SimState) (entity : Entity) : Except PyErr SimState :=
  if strIn "ems" (pyLower model_name) then
    Except.ok { s with edges := s.edges ++
      [⟨entity.full_id, forecast.full_id, [PyVal.vstr "forecast_request"], false, []⟩,
       ⟨forecast.full_id, entity.full_id, [PyVal.vstr "forecast"], true,
         [("forecast", [(forecast.full_id, SeedVal.emptyDict)])]⟩] }
  else
    match simLookup dict_simulators model_name with
    | Except.error e => Except.error e
    | Except.ok _ =>
      Except.ok { s with forecasted := s.forecasted ++ [(forecast.eid, entity.full_id)] }

/-- One type-group iteration of `connect_to_forecast`. -/
def forecastGroupStep (dict_simulators : List String) (forecast : Entity)
    (s : SimState) (group : String × List Entity) : Except PyErr SimState :=
  exceptFold (forecastStep dict_simulators forecast group.1) s group.2

/-- Embedding of `connect_to_forecast`: the per-entity loop over every type
group. -/
def connect_to_forecast (dict_entities : List (String × List Entity))
    (dict_simulators : List String) (forecast : Entity) (s : SimState) :
    Except PyErr SimState :=
  exceptFold (forecastGroupStep dict_simulators forecast) s dict_entities

/-- A value stored in one grid-connection-point configuration dict: the `"ems"`
entry holds an optional controller id (`None` or a string), the per-category
entries hold lists of entity ids. -/
inductive GcpVal where
  | vstrOpt (v : Option String)
  | vids (l : List String)

/-- Embedding of Python `del d[k]` on a gcp configuration dict. -/
def del_key (d : List (String × GcpVal)) (k : String) : List (String × GcpVal) :=
  d.filter (fun p => !(p.1 == k))

/-- Embedding of the entity-resolution loop of `connect_entities_in_grid`:
every id listed in the (ems-stripped) gcp configuration is resolved across all
entity collections (a missing entity raises `KeyError`), and the resolved
entities are grouped by their type into `dict_ent_gcp`. -/
def resolve_gcp_entities (dict_entities : List (String × List Entity))
    (vals : List GcpVal) : Except PyErr (List (String × List Entity)) :=
  exceptFold (fun d v =>
    match v with
    | GcpVal.vids ent_id_list =>
      exceptFold (fun d ent_id =>
        match get_entity_by_id_from_dict_list dict_entities ent_id with
        | some (ent, ent_dict) =>
          Except.ok (if d.any (fun p => p.1 == ent_dict.type) then
            d.map (fun p => if p.1 == ent_dict.type then (p.1, p.2 ++ [ent]) else p)
          else d ++ [(ent_dict.type, [ent])])
        | none => Except.error (PyErr.keyError ent_id))
        d ent_id_list
    | GcpVal.vstrOpt _ => Except.error PyErr.typeError)
    [] vals

/-- Embedding of Python `len(gcp_dict[k])`: `KeyError` for a missing key, the
list or string length otherwise, and `TypeError` for `len(None)`. -/
def py_len_of (gcp_dict : List (String × GcpVal)) (k : String) : Except PyErr Nat :=
  match gcp_dict.find? (fun p => p.1 == k) with
  | none => Except.error (PyErr.keyError k)
  | some (_, GcpVal.vids l) => Except.ok l.length
  | some (_, GcpVal.vstrOpt (some str0)) => Except.ok str0.length
  | some (_, GcpVal.vstrOpt none) => Except.error PyErr.typeError

/-- Embedding of the vehicle/charging-station cardinality check of
`connect_entities_in_grid`, with Python's short-circuit evaluation order. -/
def ev_cs_check (gcp_dict : List (String × GcpVal)) : Except PyErr Unit :=
  match py_len_of gcp_dict "ev" with
  | Except.error e => Except.error e
  | Except.ok n_ev =>
    if n_ev > 0 then
      match py_len_of gcp_dict "cs" with
      | Except.error e => Except.error e
      | Except.ok n_cs => if n_cs = 0 then Except.error PyErr.valueError else Except.ok ()
    else Except.ok ()

/-- The value of the loop variable `gcp` after the lookup loop
`for gcp in grid_loads: if gcp.eid == gcp_id: break`: the first match if one
exists, otherwise the last element; `none` (an unbound variable) only when
`grid_loads` is empty. -/
def find_gcp_load (grid_loads : List Entity) (gcp_id : String) : Option Entity :=
  match grid_loads.find? (fun g => g.eid == gcp_id) with
  | some g => some g
  | none => grid_loads.getLast?

/-- Embedding of Python argument unpacking `*cfg` in a `world.connect` call:
lists and tuples unpack to their elements, anything else is a `TypeError` for
the embedded uses. -/
def attrs_of (v : PyVal) : Except PyErr (List PyVal) :=
  match v with
  | PyVal.vlist l => Except.ok l
  | PyVal.vtuple l => Except.ok l
  | _ => Except.error PyErr.typeError

/-- Embedding of the no-ems device branch of `connect_entities_in_grid`: scan
`dict_ent_gcp`; a type with no `"grid_load"` entry in its connection row is
skipped, a second candidate primary occupant raises `KeyError`, otherwise the
device is connected to the grid load with a strong edge. -/
def connect_devices_at_gcp (model_connect_config : List (String × List (String × PyVal)))
    (gcp_load : Entity) (dict_ent_gcp : List (String × List Entity)) (s : SimState) :
    Except PyErr SimState :=
  match exceptFold (fun (st : SimState × Bool) group =>
    exceptFold (fun (st : SimState × Bool) ent =>
      match pyDictGet model_connect_config group.1 with
      | Except.error e => Except.error e
      | Except.ok row =>
        if !(row.any (fun q => q.1 == "grid_load")) then Except.ok st
        else if st.2 then Except.error (PyErr.keyError gcp_load.eid)
        else
          match pyDictGet model_connect_config ent.type with
          | Except.error e => Except.error e
          | Except.ok row2 =>
            match pyDictGet row2 "grid_load" with
            | Except.error e => Except.error e
            | Except.ok cfg =>
              match attrs_of cfg with
              | Except.error e => Except.error e
              | Except.ok attrs =>
                Except.ok ({ st.1 with edges :=
                  st.1.edges ++ [⟨ent.full_id, gcp_load.full_id, attrs, false, []⟩] }, true))
      st group.2)
    (s, false) dict_ent_gcp with
  | Except.error e => Except.error e
  | Except.ok st => Except.ok st.1

/-- Outcome of processing one grid connection point: continue with the next
gcp, return from the whole function (the early `return` of the source), or
raise. -/
inductive GcpOutcome where
  | next (s : SimState)
  | stop (s : SimState)
  | err (e : PyErr)

/-- Embedding of one iteration of the gcp loop of `connect_entities_in_grid`:
read and delete the `"ems"` entry, resolve the configured entities, check the
vehicle/charging-station condition, look the grid load up (an empty
`grid_loads` leaves the loop variable unbound, a `NameError`; a non-matching
last load triggers the early `return`), then either bind the configured ems or
scan the devices for a primary occupant, and finally wire everything behind the
gcp via `connect_entities`.  Returns the mutated gcp dict and the outcome. -/
def process_gcp (dict_entities : List (String × List Entity))
    (model_connect_config : List (String × List (String × PyVal)))
    (dict_simulators : List String) (grid_loads : List Entity)
    (gcp_id : String) (gcp_dict : List (String × GcpVal)) (s : SimState) :
    List (String × GcpVal) × GcpOutcome :=
  match gcp_dict.find? (fun p => p.1 == "ems") with
  | none => (gcp_dict, GcpOutcome.err (PyErr.keyError "ems"))
  | some emsEntry =>
    let gd := del_key gcp_dict "ems"
    match resolve_gcp_entities dict_entities (gd.map Prod.snd) with
    | Except.error e => (gd, GcpOutcome.err e)
    | Except.ok dict_ent_gcp =>
      match ev_cs_check gd with
      | Except.error e => (gd, GcpOutcome.err e)
      | Except.ok _ =>
        match find_gcp_load grid_loads gcp_id with
        | none => (gd, GcpOutcome.err PyErr.nameError)
        | some gcp_load =>
          if !(gcp_load.eid == gcp_id) then (gd, GcpOutcome.stop s)
          else
            match emsEntry.2 with
            | GcpVal.vids _ => (gd, GcpOutcome.err PyErr.typeError)
            | GcpVal.vstrOpt ems_gcp_id =>
              match ems_gcp_id with
              | some ems_id =>
                if !(ems_id == "") then
                  match get_entity_by_id_from_dict_list dict_entities ems_id with
                  | none => (gd, GcpOutcome.err PyErr.typeError)
                  | some (ems_ent, ems_ent_dict) =>
                    match pyDictGet model_connect_config ems_ent_dict.type with
                    | Except.error e => (gd, GcpOutcome.err e)
                    | Except.ok row =>
                      match pyDictGet row "grid_load" with
                      | Except.error e => (gd, GcpOutcome.err e)
                      | Except.ok cfg =>
                        match attrs_of cfg with
                        | Except.error e => (gd, GcpOutcome.err e)
                        | Except.ok attrs =>
                          let s1 : SimState := { s with edges := s.edges ++
                            [⟨ems_ent.full_id, gcp_load.full_id, attrs, false, []⟩] }
                          let deg := dictSet dict_ent_gcp ems_ent.type [ems_ent]
                          match connect_entities deg model_connect_config dict_simulators s1 with
                          | Except.error e => (gd, GcpOutcome.err e)
                          | Except.ok s2 => (gd, GcpOutcome.next s2)
                else
                  match connect_devices_at_gcp model_connect_config gcp_load dict_ent_gcp s with
                  | Except.error e => (gd, GcpOutcome.err e)
                  | Except.ok s1 =>
                    match connect_entities dict_ent_gcp model_connect_config dict_simulators s1 with
                    | Except.error e => (gd, GcpOutcome.err e)
                    | Except.ok s2 => (gd, GcpOutcome.next s2)
              | none =>
                match connect_devices_at_gcp model_connect_config gcp_load dict_ent_gcp s with
                | Except.error e => (gd, GcpOutcome.err e)
                | Except.ok s1 =>
                  match connect_entities dict_ent_gcp model_connect_config dict_simulators s1 with
                  | Except.error e => (gd, GcpOutcome.err e)
                  | Except.ok s2 => (gd, GcpOutcome.next s2)

/-- The gcp loop of `connect_entities_in_grid`: each configured gcp is
processed in order, the mutated configuration dicts are collected, and a
`stop` outcome (the source's early `return`) ends the whole loop with the
remaining configuration untouched. -/
def grid_gcp_loop (dict_entities : List (String × List Entity))
    (model_connect_config : List (String × List (String × PyVal)))
    (dict_simulators : List String) (grid_loads : List Entity) :
    SimState → List (String × List (String × GcpVal)) →
    List (String × List (String × GcpVal)) × Except PyErr SimState
  | s, [] => ([], Except.ok s)
  | s, (gcp_id, gcp_dict) :: rest =>
    match process_gcp dict_entities model_connect_config dict_simulators grid_loads
        gcp_id gcp_dict s with
    | (gd, GcpOutcome.next s') =>
      let r := grid_gcp_loop dict_entities model_connect_config dict_simulators grid_loads
        s' rest
      ((gcp_id, gd) :: r.1, r.2)
    | (gd, GcpOutcome.stop s') => ((gcp_id, gd) :: rest, Except.ok s')
    | (gd, GcpOutcome.err e) => ((gcp_id, gd) :: rest, Except.error e)

/-- Embedding of `connect_entities_in_grid`.  The grid ems, when present, is
connected to the grid entity first (`IndexError` on an empty `"GridEMS"`
collection), then every configured grid connection point is processed.  The
returned configuration reflects the in-place deletion of the `"ems"` entries
performed by the source. -/
def connect_entities_in_grid (grid_model_config : List (String × List (String × GcpVal)))
    (grid : Entity) (grid_loads : List Entity)
    (model_connect_config : List (String × List (String × PyVal)))
    (dict_entities : List (String × List Entity))
    (dict_simulators : List String) (s : SimState) :
    List (String × List (String × GcpVal)) × Except PyErr SimState :=
  if (dict_entities.map Prod.fst).contains "GridEMS" then
    match pyDictGet dict_entities "GridEMS" with
    | Except.error e => (grid_model_config, Except.error e)
    | Except.ok l =>
      match l with
      | [] => (grid_model_config, Except.error PyErr.indexError)
      | g :: _ =>
        let s1 : SimState := { s with edges := s.edges ++
          [⟨grid.full_id, g.full_id,
            [PyVal.vstr "grid_status", PyVal.vstr "ptdf_mat", PyVal.vstr "vpif_mat"],
            false, []⟩] }
        grid_gcp_loop dict_entities model_connect_config dict_simulators grid_loads
          s1 grid_model_config
  else
    grid_gcp_loop dict_entities model_connect_config dict_simulators grid_loads
      s grid_model_config

/-- The edges created by one iteration of the planner's double loop: the
strong edge, followed by the seeded weak edge when the weak configuration is
non-empty. -/
def pairBatch (entity_list_strong : List Entity) (cfgStrong cfgWeak : List PyVal)
    (ent_strong ent_weak : Entity) : List Edge :=
  ⟨ent_strong.full_id, ent_weak.full_id, cfgStrong, false, []⟩ ::
    (match cfgWeak with
     | [] => []
     | _ :: _ =>
       [⟨ent_weak.full_id, ent_strong.full_id, cfgWeak, true,
         dict_init_data cfgWeak entity_list_strong⟩])

/-- The controlled-entity registrations created by one iteration of the
planner's double loop. -/
def pairCtrl (sim_entities_weak : Bool) (ent_strong ent_weak : Entity) :
    List (String × String × EntDescr) :=
  if ent_weak.sim_name == "EMSSim" && sim_entities_weak then
    [(ent_weak.eid, ent_strong.eid, ⟨ent_strong.eid, ent_strong.full_id, ent_strong.type⟩)]
  else []

/-- All edges created by the planner's double loop over both entity lists. -/
def allPairsEdges (entity_list_strong entity_list_weak : List Entity)
    (cfgStrong cfgWeak : List PyVal) : List Edge :=
  entity_list_strong.flatMap (fun ent_strong =>
    entity_list_weak.flatMap (fun ent_weak =>
      pairBatch entity_list_strong cfgStrong cfgWeak ent_strong ent_weak))

/-- All controlled-entity registrations created by the planner's double loop. -/
def allPairsCtrl (entity_list_strong entity_list_weak : List Entity)
    (sim_entities_weak : Bool) : List (String × String × EntDescr) :=
  entity_list_strong.flatMap (fun ent_strong =>
    entity_list_weak.flatMap (fun ent_weak => pairCtrl sim_entities_weak ent_strong ent_weak))

theorem get_entity_by_id_self (e : Entity) :
    get_entity_by_id [e] e.eid = some (e, ⟨e.eid, e.full_id, e.type⟩) := by
  simp [get_entity_by_id, List.find?]

theorem connectPair_eq (entity_list_strong : List Entity) (cfgStrong cfgWeak : List PyVal)
    (sim_entities_weak : Bool) (ent_strong ent_weak : Entity) (s : SimState) :
    connectPair entity_list_strong cfgStrong cfgWeak sim_entities_weak ent_strong ent_weak s =
      ⟨s.edges ++ pairBatch entity_list_strong cfgStrong cfgWeak ent_strong ent_weak,
       s.controlled ++ pairCtrl sim_entities_weak ent_strong ent_weak, s.forecasted⟩ := by
  unfold connectPair pairBatch pairCtrl
  rw [get_entity_by_id_self]
  cases cfgWeak <;> by_cases h : (ent_weak.sim_name == "EMSSim" && sim_entities_weak) = true <;>
    simp [h, List.append_assoc]

theorem pairLoopsInner_eq (entity_list_strong : List Entity) (cfgStrong cfgWeak : List PyVal)
    (sim_entities_weak : Bool) (ent_strong : Entity) (wL : List Entity) (s : SimState) :
    wL.foldl (fun s2 ent_weak =>
        connectPair entity_list_strong cfgStrong cfgWeak sim_entities_weak ent_strong ent_weak s2)
        s =
      ⟨s.edges ++ wL.flatMap (pairBatch entity_list_strong cfgStrong cfgWeak ent_strong),
       s.controlled ++ wL.flatMap (pairCtrl sim_entities_weak ent_strong), s.forecasted⟩ := by
  induction wL generalizing s with
  | nil => simp
  | cons w ws ih =>
    simp only [List.foldl_cons]
    rw [connectPair_eq, ih]
    simp [List.append_assoc]

theorem pairLoopsOuter_aux (seedL : List Entity) (cfgStrong cfgWeak : List PyVal)
    (sim_entities_weak : Bool) (wL : List Entity) (sL : List Entity) (s : SimState) :
    sL.foldl (fun s1 ent_strong =>
        wL.foldl (fun s2 ent_weak =>
          connectPair seedL cfgStrong cfgWeak sim_entities_weak ent_strong ent_weak s2) s1)
        s =
      ⟨s.edges ++ sL.flatMap (fun ent_strong =>
          wL.flatMap (pairBatch seedL cfgStrong cfgWeak ent_strong)),
       s.controlled ++ sL.flatMap (fun ent_strong =>
          wL.flatMap (pairCtrl sim_entities_weak ent_strong)), s.forecasted⟩ := by
  induction sL generalizing s with
  | nil => simp
  | cons e es ih =>
    simp only [List.foldl_cons]
    rw [pairLoopsInner_eq, ih]
    simp [List.append_assoc]

theorem pairLoops_eq (entity_list_strong entity_list_weak : List Entity)
    (cfgStrong cfgWeak : List PyVal) (sim_entities_weak : Bool) (s : SimState) :
    pairLoops entity_list_strong entity_list_weak cfgStrong cfgWeak sim_entities_weak s =
      ⟨s.edges ++ allPairsEdges entity_list_strong entity_list_weak cfgStrong cfgWeak,
       s.controlled ++ allPairsCtrl entity_list_strong entity_list_weak sim_entities_weak,
       s.forecasted⟩ :=
  pairLoopsOuter_aux entity_list_strong cfgStrong cfgWeak sim_entities_weak
    entity_list_weak entity_list_strong s

/-- A state transformer of the embedded world is *additive* when its outcome
does not depend on the incoming state: it either always raises the same
exception, or always appends the same batches of edges and registrations.
Every step of the connection planner is additive, which is the key to the
idempotence analysis. -/
def StepAdds (f : SimState → Except PyErr SimState) : Prop :=
  (∃ e, ∀ s, f s = Except.error e) ∨
  (∃ de dc df, ∀ s, f s = Except.ok
    ⟨s.edges ++ de, s.controlled ++ dc, s.forecasted ++ df⟩)

theorem stepAdds_error (e : PyErr) : StepAdds (fun _ => Except.error e) :=
  Or.inl ⟨e, fun _ => rfl⟩

theorem stepAdds_id : StepAdds (fun s => Except.ok s) :=
  Or.inr ⟨[], [], [], fun s => by simp⟩

theorem stepAdds_congr {f g : SimState → Except PyErr SimState}
    (h : ∀ s, f s = g s) (hg : StepAdds g) : StepAdds f := by
  rcases hg with ⟨e, he⟩ | ⟨de, dc, df, hok⟩
  · exact Or.inl ⟨e, fun s => (h s).trans (he s)⟩
  · exact Or.inr ⟨de, dc, df, fun s => (h s).trans (hok s)⟩

theorem stepAdds_bind {f g : SimState → Except PyErr SimState}
    (hf : StepAdds f) (hg : StepAdds g) :
    StepAdds (fun s => match f s with
      | Except.ok t => g t
      | Except.error e => Except.error e) := by
  rcases hf with ⟨e, he⟩ | ⟨de, dc, df, hok⟩
  · exact Or.inl ⟨e, fun s => by simp [he s]⟩
  · rcases hg with ⟨e2, he2⟩ | ⟨de2, dc2, df2, hok2⟩
    · exact Or.inl ⟨e2, fun s => by simp [hok s, he2]⟩
    · exact Or.inr ⟨de ++ de2, dc ++ dc2, df ++ df2, fun s => by
        simp [hok s, hok2, List.append_assoc]⟩

theorem stepAdds_exceptFold {α : Type} {f : SimState → α → Except PyErr SimState}
    (hf : ∀ a, StepAdds (fun s => f s a)) (l : List α) :
    StepAdds (fun s => exceptFold f s l) := by
  induction l with
  | nil => exact stepAdds_congr (fun s => rfl) stepAdds_id
  | cons x xs ih =>
    refine stepAdds_congr (fun s => ?_) (stepAdds_bind (hf x) ih)
    cases h : f s x <;> simp [exceptFold, h]

theorem stepAdds_mem_controlled {f : SimState → Except PyErr SimState}
    (hf : StepAdds f) {s s' : SimState} (h : f s = Except.ok s')
    {z : String × String × EntDescr} (hz : z ∈ s.controlled) : z ∈ s'.controlled := by
  rcases hf with ⟨e, he⟩ | ⟨de, dc, df, hok⟩
  · rw [he s] at h; exact absurd h (by simp)
  · rw [hok s] at h
    cases h
    exact List.mem_append_left _ hz

theorem stepAdds_connect_two (sL wL : List Entity) (cS cW : PyVal) (sw : Bool) :
    StepAdds (fun s => connect_entities_of_two_model_types sL wL cS cW sw s) := by
  cases h1 : check_model_connect_config cS with
  | error e =>
    exact stepAdds_congr (fun s => by simp [connect_entities_of_two_model_types, h1])
      (stepAdds_error e)
  | ok u =>
    cases h2 : check_model_connect_config cW with
    | error e =>
      exact stepAdds_congr (fun s => by simp [connect_entities_of_two_model_types, h1, h2])
        (stepAdds_error e)
    | ok u2 =>
      cases cS with
      | vstr a => simp [check_model_connect_config] at h1
      | vint n => simp [check_model_connect_config] at h1
      | vtuple t => simp [check_model_connect_config] at h1
      | vlist l1 =>
        cases cW with
        | vstr a => simp [check_model_connect_config] at h2
        | vint n => simp [check_model_connect_config] at h2
        | vtuple t => simp [check_model_connect_config] at h2
        | vlist l2 =>
          cases l1 with
          | nil =>
            cases l2 with
            | nil =>
              exact stepAdds_congr
                (fun s => by simp [connect_entities_of_two_model_types, h1, h2]) stepAdds_id
            | cons a as =>
              exact stepAdds_congr
                (fun s => by simp [connect_entities_of_two_model_types, h1, h2])
                (stepAdds_error PyErr.valueError)
          | cons c cs =>
            cases sL with
            | nil =>
              exact stepAdds_congr
                (fun s => by simp [connect_entities_of_two_model_types, h1, h2])
                (stepAdds_error PyErr.nameError)
            | cons e1 es =>
              cases wL with
              | nil =>
                exact stepAdds_congr
                  (fun s => by simp [connect_entities_of_two_model_types, h1, h2])
                  (stepAdds_error PyErr.nameError)
              | cons e2 ws =>
                refine Or.inr ⟨allPairsEdges (e1 :: es) (e2 :: ws) (c :: cs) l2,
                  allPairsCtrl (e1 :: es) (e2 :: ws) sw, [], fun s => ?_⟩
                simp [connect_entities_of_two_model_types, h1, h2, pairLoops_eq]

theorem stepAdds_connectInnerStep (d : List (String × List Entity))
    (mcc : List (String × List (String × PyVal))) (sims : List String)
    (nf nt : String) : StepAdds (fun s => connectInnerStep d mcc sims nf nt s) := by
  cases h1 : infer_roles sims nf nt with
  | error e => exact stepAdds_congr (fun s => by simp [connectInnerStep, h1]) (stepAdds_error e)
  | ok r =>
    obtain ⟨sw, name_from, name_to⟩ := r
    cases h2 : pyDictGet d name_from with
    | error e =>
      exact stepAdds_congr (fun s => by simp [connectInnerStep, h1, h2]) (stepAdds_error e)
    | ok lf =>
      cases h3 : pyDictGet d name_to with
      | error e =>
        exact stepAdds_congr (fun s => by simp [connectInnerStep, h1, h2, h3]) (stepAdds_error e)
      | ok lt =>
        cases h4 : pyDictGet mcc name_from with
        | error e =>
          exact stepAdds_congr (fun s => by simp [connectInnerStep, h1, h2, h3, h4])
            (stepAdds_error e)
        | ok rowF =>
          cases h5 : pyDictGet rowF name_to with
          | error e =>
            exact stepAdds_congr (fun s => by simp [connectInnerStep, h1, h2, h3, h4, h5])
              (stepAdds_error e)
          | ok cfgS =>
            cases h6 : pyDictGet mcc name_to with
            | error e =>
              exact stepAdds_congr (fun s => by simp [connectInnerStep, h1, h2, h3, h4, h5, h6])
                (stepAdds_error e)
            | ok rowT =>
              cases h7 : pyDictGet rowT name_from with
              | error e =>
                exact stepAdds_congr
                  (fun s => by simp [connectInnerStep, h1, h2, h3, h4, h5, h6, h7])
                  (stepAdds_error e)
              | ok cfgW =>
                exact stepAdds_congr
                  (fun s => by simp [connectInnerStep, h1, h2, h3, h4, h5, h6, h7])
                  (stepAdds_connect_two lf lt cfgS cfgW sw)

theorem stepAdds_evRegStep (sims : List String) (ev_list : List Entity) (ems_eid : String)
    (ev_ent : Entity) : StepAdds (fun s => evRegStep sims ev_list ems_eid s ev_ent) := by
  cases hg : get_entity_by_id ev_list ev_ent.eid with
  | none => exact stepAdds_congr (fun s => by simp [evRegStep, hg]) (stepAdds_error PyErr.typeError)
  | some r =>
    obtain ⟨ev_entity, ev_entity_dict⟩ := r
    cases hs : simLookup sims "ems" with
    | error e => exact stepAdds_congr (fun s => by simp [evRegStep, hg, hs]) (stepAdds_error e)
    | ok u =>
      exact Or.inr ⟨[], [(ems_eid, ev_entity.eid, ev_entity_dict)], [],
        fun s => by simp [evRegStep, hg, hs]⟩

theorem stepAdds_emsRegStep (d : List (String × List Entity)) (sims : List String)
    (ems_ent : Entity) : StepAdds (fun s => emsRegStep d sims s ems_ent) := by
  by_cases hEV : ((d.map Prod.fst).contains "EV") = true
  · cases hevl : pyDictGet d "EV" with
    | error e =>
      exact stepAdds_congr (fun s => by simp only [emsRegStep, hEV, hevl]; rfl)
        (stepAdds_error e)
    | ok ev_list =>
      exact stepAdds_congr (fun s => by simp only [emsRegStep, hEV, hevl]; rfl)
        (stepAdds_exceptFold (stepAdds_evRegStep sims ev_list ems_ent.eid) ev_list)
  · rw [Bool.not_eq_true] at hEV
    exact stepAdds_congr (fun s => by simp only [emsRegStep, hEV]; rfl) stepAdds_id

theorem stepAdds_emsEvBlock (d : List (String × List Entity)) (sims : List String)
    (n : String) : StepAdds (fun s => emsEvBlock d sims n s) := by
  by_cases hn : (strIn "ems" n || strIn "EMS" n) = true
  · cases hl : pyDictGet d n with
    | error e =>
      exact stepAdds_congr (fun s => by simp only [emsEvBlock, hn, hl]; rfl) (stepAdds_error e)
    | ok ems_list =>
      exact stepAdds_congr (fun s => by simp only [emsEvBlock, hn, hl]; rfl)
        (stepAdds_exceptFold (stepAdds_emsRegStep d sims) ems_list)
  · rw [Bool.not_eq_true] at hn
    exact stepAdds_congr (fun s => by simp only [emsEvBlock, hn]; rfl) stepAdds_id

theorem stepAdds_connectInnerStepIdx (d : List (String × List Entity))
    (mcc : List (String × List (String × PyVal))) (sims : List String)
    (outer inner : Nat × String) :
    StepAdds (fun s => connectInnerStepIdx d mcc sims outer s inner) := by
  by_cases h : (inner.1 ≤ outer.1)
  · exact stepAdds_congr (fun s => by simp [connectInnerStepIdx, h]) stepAdds_id
  · exact stepAdds_congr (fun s => by simp [connectInnerStepIdx, h])
      (stepAdds_connectInnerStep d mcc sims outer.2 inner.2)

theorem stepAdds_connectOuterStep (d : List (String × List Entity))
    (mcc : List (String × List (String × PyVal))) (sims : List String)
    (keysEnum : List (Nat × String)) (outer : Nat × String) :
    StepAdds (fun s => connectOuterStep d mcc sims keysEnum s outer) := by
  refine stepAdds_congr (fun s => ?_)
    (stepAdds_bind
      (stepAdds_exceptFold (stepAdds_connectInnerStepIdx d mcc sims outer) keysEnum)
      (stepAdds_emsEvBlock d sims outer.2))
  cases h : exceptFold (connectInnerStepIdx d mcc sims outer) s keysEnum <;>
    simp [connectOuterStep, h]

theorem stepAdds_connect_entities (d : List (String × List Entity))
    (mcc : List (String × List (String × PyVal))) (sims : List String) :
    StepAdds (fun s => connect_entities d mcc sims s) :=
  stepAdds_congr (fun s => by simp [connect_entities])
    (stepAdds_exceptFold (stepAdds_connectOuterStep d mcc sims ((d.map Prod.fst).enum))
      ((d.map Prod.fst).enum))

theorem exceptFold_ok_all {σ α : Type} {P : σ → σ → Prop}
    (hrefl : ∀ a, P a a) (htrans : ∀ a b c, P a b → P b c → P a c)
    {f : σ → α → Except PyErr σ} {l : List α}
    (h : ∀ x ∈ l, ∀ t, ∃ t', f t x = Except.ok t' ∧ P t t') (s : σ) :
    ∃ s', exceptFold f s l = Except.ok s' ∧ P s s' := by
  induction l generalizing s with
  | nil => exact ⟨s, rfl, hrefl s⟩
  | cons x xs ih =>
    obtain ⟨t, hft, hPt⟩ := h x (List.mem_cons_self _ _) s
    obtain ⟨s', hfold, hP⟩ := ih (fun y hy t => h y (List.mem_cons_of_mem _ hy) t) t
    exact ⟨s', by simp [exceptFold, hft, hfold], htrans _ _ _ hPt hP⟩

theorem contains_key_pyDictGet {α : Type} (d : List (String × α)) (k : String)
    (h : (d.map Prod.fst).contains k = true) : ∃ v, pyDictGet d k = Except.ok v := by
  have hk : k ∈ d.map Prod.fst := by simpa using h
  obtain ⟨p, hp, hpk⟩ := List.mem_map.mp hk
  have : (d.find? (fun q => q.1 == k)).isSome := by
    rw [List.find?_isSome]
    exact ⟨p, hp, by simp [hpk]⟩
  obtain ⟨q, hq⟩ := Option.isSome_iff_exists.mp this
  exact ⟨q.2, by simp [pyDictGet, hq]⟩

theorem get_entity_by_id_mem (l : List Entity) (x : Entity) (hx : x ∈ l) :
    ∃ e dsc, get_entity_by_id l x.eid = some (e, dsc) ∧ e.eid = x.eid := by
  have hs : (l.find? (fun entity => entity.eid == x.eid)).isSome := by
    rw [List.find?_isSome]
    exact ⟨x, hx, by simp⟩
  obtain ⟨e, he⟩ := Option.isSome_iff_exists.mp hs
  have hpe := List.find?_some he
  exact ⟨e, ⟨e.eid, e.full_id, e.type⟩, by simp [get_entity_by_id, he], by simpa using hpe⟩

theorem infer_roles_ems_contains (sims : List String) (n1 n2 : String)
    (r : Bool × String × String) (h : infer_roles sims n1 n2 = Except.ok r)
    (hor : (strIn "ems" n1 || strIn "EMS" n1) = true ∨
      (strIn "ems" n2 || strIn "EMS" n2) = true) :
    sims.contains "ems" = true := by
  by_cases hc : ("ems" ∈ sims)
  · simpa using hc
  · by_cases h1 : (strIn "ems" n1 || strIn "EMS" n1) = true
    · simp [infer_roles, h1, simLookup, hc] at h
    · by_cases h2 : (strIn "ems" n2 || strIn "EMS" n2) = true
      · simp [infer_roles, h1, h2, simLookup, hc] at h
      · rcases hor with h' | h' <;> [exact absurd h' h1; exact absurd h' h2]

theorem emsEvBlock_ok (d : List (String × List Entity)) (sims : List String) (n : String)
    (hsim : (strIn "ems" n || strIn "EMS" n) = true → sims.contains "ems" = true)
    (hl : (strIn "ems" n || strIn "EMS" n) = true →
      ∃ l, pyDictGet d n = Except.ok l) (s : SimState) :
    ∃ s', emsEvBlock d sims n s = Except.ok s' ∧
      s'.edges = s.edges ∧ s'.forecasted = s.forecasted := by
  by_cases hn : (strIn "ems" n || strIn "EMS" n) = true
  · obtain ⟨ems_list, hml⟩ := hl hn
    have hstep : ∀ x ∈ ems_list, ∀ t, ∃ t', emsRegStep d sims t x = Except.ok t' ∧
        t'.edges = t.edges ∧ t'.forecasted = t.forecasted := by
      intro ems_ent _ t
      by_cases hEV : ((d.map Prod.fst).contains "EV") = true
      · obtain ⟨ev_list, hevl⟩ := contains_key_pyDictGet d "EV" hEV
        have hev : ∀ y ∈ ev_list, ∀ u, ∃ u',
            evRegStep sims ev_list ems_ent.eid u y = Except.ok u' ∧
            u'.edges = u.edges ∧ u'.forecasted = u.forecasted := by
          intro y hy u
          obtain ⟨e, dsc, hge, _⟩ := get_entity_by_id_mem ev_list y hy
          have hmem : "ems" ∈ sims := by simpa using hsim hn
          exact ⟨{ u with controlled := u.controlled ++ [(ems_ent.eid, e.eid, dsc)] },
            by simp [evRegStep, hge, simLookup, hmem], rfl, rfl⟩
        obtain ⟨t', hfold, hpr⟩ := exceptFold_ok_all
          (fun a => ⟨rfl, rfl⟩)
          (fun a b c hab hbc => ⟨hbc.1.trans hab.1, hbc.2.trans hab.2⟩) hev t
        exact ⟨t', by simp only [emsRegStep, hEV, hevl]; exact hfold, hpr⟩
      · rw [Bool.not_eq_true] at hEV
        exact ⟨t, by simp only [emsRegStep, hEV]; rfl, rfl, rfl⟩
    obtain ⟨s', hfold, hpr⟩ := exceptFold_ok_all
      (fun a => ⟨rfl, rfl⟩)
      (fun a b c hab hbc => ⟨hbc.1.trans hab.1, hbc.2.trans hab.2⟩) hstep s
    exact ⟨s', by simp only [emsEvBlock, hn, hml]; exact hfold, hpr⟩
  · rw [Bool.not_eq_true] at hn
    exact ⟨s, by simp only [emsEvBlock, hn]; rfl, rfl, rfl⟩

theorem pyDictGet_pair_fst {α : Type} (n1 n2 : String) (l1 l2 : α) :
    pyDictGet [(n1, l1), (n2, l2)] n1 = Except.ok l1 := by
  simp [pyDictGet, List.find?]

theorem pyDictGet_pair_snd {α : Type} (n1 n2 : String) (l1 l2 : α)
    (hne : (n1 == n2) = false) :
    pyDictGet [(n1, l1), (n2, l2)] n2 = Except.ok l2 := by
  simp [pyDictGet, List.find?, hne]

theorem connect_entities_two_groups
    (n1 n2 : String) (l1 l2 : List Entity)
    (mcc : List (String × List (String × PyVal))) (sims : List String)
    (sw : Bool) (nf nt : String) (lf lt : List Entity)
    (cS cW : List PyVal) (rowF rowT : List (String × PyVal)) (s : SimState)
    (hne : (n1 == n2) = false)
    (hroles : infer_roles sims n1 n2 = Except.ok (sw, nf, nt))
    (hf : pyDictGet [(n1, l1), (n2, l2)] nf = Except.ok lf)
    (ht : pyDictGet [(n1, l1), (n2, l2)] nt = Except.ok lt)
    (hrF : pyDictGet mcc nf = Except.ok rowF)
    (hcS : pyDictGet rowF nt = Except.ok (PyVal.vlist cS))
    (hrT : pyDictGet mcc nt = Except.ok rowT)
    (hcW : pyDictGet rowT nf = Except.ok (PyVal.vlist cW))
    (hchkS : check_model_connect_config (PyVal.vlist cS) = Except.ok ())
    (hchkW : check_model_connect_config (PyVal.vlist cW) = Except.ok ())
    (hSne : cS ≠ []) (hlf : lf ≠ []) (hlt : lt ≠ []) :
    (connect_entities [(n1, l1), (n2, l2)] mcc sims s).map SimState.edges =
      Except.ok (s.edges ++ allPairsEdges lf lt cS cW) := by
  obtain ⟨c, cs, rfl⟩ : ∃ c cs, cS = c :: cs := by
    cases cS with
    | nil => exact absurd rfl hSne
    | cons c cs => exact ⟨c, cs, rfl⟩
  obtain ⟨e1, es, rfl⟩ : ∃ e1 es, lf = e1 :: es := by
    cases lf with
    | nil => exact absurd rfl hlf
    | cons e1 es => exact ⟨e1, es, rfl⟩
  obtain ⟨e2, ws, rfl⟩ : ∃ e2 ws, lt = e2 :: ws := by
    cases lt with
    | nil => exact absurd rfl hlt
    | cons e2 ws => exact ⟨e2, ws, rfl⟩
  have htwo : connect_entities_of_two_model_types (e1 :: es) (e2 :: ws)
      (PyVal.vlist (c :: cs)) (PyVal.vlist cW) sw s =
      Except.ok ⟨s.edges ++ allPairsEdges (e1 :: es) (e2 :: ws) (c :: cs) cW,
        s.controlled ++ allPairsCtrl (e1 :: es) (e2 :: ws) sw, s.forecasted⟩ := by
    simp [connect_entities_of_two_model_types, hchkS, hchkW, pairLoops_eq]
  have hstep : connectInnerStep [(n1, l1), (n2, l2)] mcc sims n1 n2 s =
      Except.ok ⟨s.edges ++ allPairsEdges (e1 :: es) (e2 :: ws) (c :: cs) cW,
        s.controlled ++ allPairsCtrl (e1 :: es) (e2 :: ws) sw, s.forecasted⟩ := by
    simp only [connectInnerStep, hroles, hf, ht, hrF, hcS, hrT, hcW, htwo]
  set sMid : SimState := ⟨s.edges ++ allPairsEdges (e1 :: es) (e2 :: ws) (c :: cs) cW,
    s.controlled ++ allPairsCtrl (e1 :: es) (e2 :: ws) sw, s.forecasted⟩ with hsMid
  have hinner1 : exceptFold
      (connectInnerStepIdx [(n1, l1), (n2, l2)] mcc sims (0, n1)) s [(0, n1), (1, n2)] =
      Except.ok sMid := by
    simp [exceptFold, connectInnerStepIdx, hstep]
  have hglookup : (strIn "ems" n1 || strIn "EMS" n1) = true ∨
      (strIn "ems" n2 || strIn "EMS" n2) = true → sims.contains "ems" = true :=
    fun hor => infer_roles_ems_contains sims n1 n2 (sw, nf, nt) hroles hor
  obtain ⟨sB, hB, hBe, hBf⟩ := emsEvBlock_ok [(n1, l1), (n2, l2)] sims n1
    (fun hx => hglookup (Or.inl hx)) (fun _ => ⟨l1, pyDictGet_pair_fst n1 n2 l1 l2⟩) sMid
  obtain ⟨sC, hC, hCe, hCf⟩ := emsEvBlock_ok [(n1, l1), (n2, l2)] sims n2
    (fun hx => hglookup (Or.inr hx)) (fun _ => ⟨l2, pyDictGet_pair_snd n1 n2 l1 l2 hne⟩) sB
  have houter1 : connectOuterStep [(n1, l1), (n2, l2)] mcc sims [(0, n1), (1, n2)] s (0, n1) =
      Except.ok sB := by
    simp only [connectOuterStep, hinner1, hB]
  have hinner2 : exceptFold
      (connectInnerStepIdx [(n1, l1), (n2, l2)] mcc sims (1, n2)) sB [(0, n1), (1, n2)] =
      Except.ok sB := by
    simp [exceptFold, connectInnerStepIdx]
  have houter2 : connectOuterStep [(n1, l1), (n2, l2)] mcc sims [(0, n1), (1, n2)] sB (1, n2) =
      Except.ok sC := by
    simp only [connectOuterStep, hinner2, hC]
  have hkeys : ((List.map Prod.fst [(n1, l1), (n2, l2)]).enum) = [(0, n1), (1, n2)] := rfl
  have hfinal : connect_entities [(n1, l1), (n2, l2)] mcc sims s = Except.ok sC := by
    simp only [connect_entities, hkeys, exceptFold, houter1, houter2]
  rw [hfinal]
  simp [Except.map, hCe, hBe]

/-- Charging-station entity of the concrete vehicle/station scenario. -/
def CS0c : Entity := ⟨"CS_0", "CS_0", "charging_station", "CSSim"⟩

/-- Vehicle entity of the concrete vehicle/station scenario. -/
def EV0c : Entity := ⟨"EV_0", "EV_0", "car", "EVSim"⟩

/-- Connection-attribute matrix of the concrete vehicle/station scenario:
station-to-vehicle carries `p_set`, vehicle-to-station carries `p_avail`. -/
def mccEvCs : List (String × List (String × PyVal)) :=
  [("charging_station", [("car", PyVal.vlist [PyVal.vstr "p_set"])]),
   ("car", [("charging_station", PyVal.vlist [PyVal.vstr "p_avail"])])]

/-- C1, counterexample.  On the pair `EV_0` (vehicle) / `CS_0` (charging
station) with mappings station-to-vehicle `["p_set"]` and vehicle-to-station
`["p_avail"]`, the planner produces a *strong* edge `EV_0 → CS_0` carrying
`p_avail` and a *weak* edge `CS_0 → EV_0` carrying `p_set` seeded
`{"p_set": {"EV_0": 0}}` — the opposite of the claimed direction (the claim
asserts a strong `CS_0 → EV_0` edge with `p_set` and a weak `EV_0 → CS_0` edge
with `p_avail`). -/
theorem c1_counterexample :
    connect_entities [("charging_station", [CS0c]), ("car", [EV0c])] mccEvCs []
      SimState.empty =
      Except.ok ⟨[⟨"EV_0", "CS_0", [PyVal.vstr "p_avail"], false, []⟩,
        ⟨"CS_0", "EV_0", [PyVal.vstr "p_set"], true, [("p_set", [("EV_0", SeedVal.zero)])]⟩],
        [], []⟩ := rfl

/-- C1, amended.  For every vehicle-category (`car`-named) /
charging-station-category type pair with non-empty well-formed attribute
mappings in both directions and no ems involvement, irrespective of the group
order, the *vehicle-to-station* edges are strong (carrying the
vehicle-to-station mapping) and the *station-to-vehicle* edges are weak,
seeded via `dict_init_data` with zero for every station-to-vehicle attribute
keyed by the vehicles' full ids — as laid out in `allPairsEdges` with the
vehicle list on the strong side.  Both entity lists must be non-empty: with an
empty list on either side the source instead raises an unbound-variable error
at the trailing log statement of `connect_entities_of_two_model_types`. -/
theorem c1_vehicle_station_roles
    (nCS nCar : String) (lCS lCar : List Entity) (d : List (String × List Entity))
    (mcc : List (String × List (String × PyVal))) (sims : List String)
    (cS cW : List PyVal) (rowCar rowCS : List (String × PyVal)) (s : SimState)
    (hd : d = [(nCS, lCS), (nCar, lCar)] ∨ d = [(nCar, lCar), (nCS, lCS)])
    (hne : (nCS == nCar) = false)
    (hCS : (strIn "ems" nCS || strIn "EMS" nCS) = false)
    (hCar : (strIn "ems" nCar || strIn "EMS" nCar) = false)
    (hswapA : (strIn "charging_station" nCS && strIn "car" nCar) = true)
    (hswapB : (strIn "charging_station" nCar && strIn "car" nCS) = false)
    (hrowCar : pyDictGet mcc nCar = Except.ok rowCar)
    (hcS : pyDictGet rowCar nCS = Except.ok (PyVal.vlist cS))
    (hrowCS : pyDictGet mcc nCS = Except.ok rowCS)
    (hcW : pyDictGet rowCS nCar = Except.ok (PyVal.vlist cW))
    (hchkS : check_model_connect_config (PyVal.vlist cS) = Except.ok ())
    (hchkW : check_model_connect_config (PyVal.vlist cW) = Except.ok ())
    (hSne : cS ≠ []) (hlCar : lCar ≠ []) (hlCS : lCS ≠ []) :
    (connect_entities d mcc sims s).map SimState.edges =
      Except.ok (s.edges ++ allPairsEdges lCar lCS cS cW) := by
  have hne' : (nCar == nCS) = false :=
    beq_eq_false_iff_ne.mpr (Ne.symm (beq_eq_false_iff_ne.mp hne))
  rcases hd with rfl | rfl
  · have hroles : infer_roles sims nCS nCar = Except.ok (false, nCar, nCS) := by
      simp [infer_roles, hCS, hCar, hswapA]
    exact connect_entities_two_groups nCS nCar lCS lCar mcc sims false nCar nCS lCar lCS
      cS cW rowCar rowCS s hne hroles (pyDictGet_pair_snd nCS nCar lCS lCar hne)
      (pyDictGet_pair_fst nCS nCar lCS lCar) hrowCar hcS hrowCS hcW hchkS hchkW hSne
      hlCar hlCS
  · have hroles : infer_roles sims nCar nCS = Except.ok (false, nCar, nCS) := by
      simp [infer_roles, hCS, hCar, hswapB]
    exact connect_entities_two_groups nCar nCS lCar lCS mcc sims false nCar nCS lCar lCS
      cS cW rowCar rowCS s hne' hroles (pyDictGet_pair_fst nCar nCS lCar lCS)
      (pyDictGet_pair_snd nCar nCS lCar lCS hne') hrowCar hcS hrowCS hcW hchkS hchkW hSne
      hlCar hlCS

/-- C1, witness for the amended theorem at the concrete `EV_0`/`CS_0`
scenario. -/
theorem c1_witness :
    (strIn "charging_station" "charging_station" && strIn "car" "car") = true ∧
    (connect_entities [("charging_station", [CS0c]), ("car", [EV0c])] mccEvCs []
        SimState.empty).map SimState.edges =
      Except.ok ([] ++ allPairsEdges [EV0c] [CS0c] [PyVal.vstr "p_avail"] [PyVal.vstr "p_set"]) :=
  ⟨by decide,
    c1_vehicle_station_roles "charging_station" "car" [CS0c] [EV0c]
      [("charging_station", [CS0c]), ("car", [EV0c])] mccEvCs []
      [PyVal.vstr "p_avail"] [PyVal.vstr "p_set"]
      [("charging_station", PyVal.vlist [PyVal.vstr "p_avail"])]
      [("car", PyVal.vlist [PyVal.vstr "p_set"])] SimState.empty
      (Or.inl rfl) (by decide) (by decide) (by decide) (by decide) (by decide)
      rfl rfl rfl rfl rfl rfl (List.cons_ne_nil _ _) (List.cons_ne_nil _ _)
      (List.cons_ne_nil _ _)⟩

/-- Controller entity of the concrete controller/device scenario. -/
def HEMS0c : Entity := ⟨"HEMS_0", "HEMS_0", "hems", "EMSSim"⟩

/-- Device entity of the concrete controller/device scenario. -/
def PVdevc : Entity := ⟨"PV_0", "PV_0", "pv", "PVSim"⟩

/-- Connection-attribute matrix of the concrete controller/device scenario. -/
def mccHemsPv : List (String × List (String × PyVal)) :=
  [("pv", [("hems", PyVal.vlist [PyVal.vstr "p_out"])]),
   ("hems", [("pv", PyVal.vlist [PyVal.vstr "p_set"])])]

/-- C4.  For a pair of one ems-named (controller-category) type group and one
device type group with non-empty well-formed attribute mappings in both
directions, irrespective of which group comes first in the entity dictionary,
the created edge set is `allPairsEdges` with the device list on the strong
side: every device-to-controller edge is strong, and every controller-to-device
edge is weak and carries the `dict_init_data` zero seed.  Both entity lists
must be non-empty: with an empty list on either side the source instead raises
an unbound-variable error at the trailing log statement of
`connect_entities_of_two_model_types` (and creates no edge at all). -/
theorem c4_device_controller_roles
    (nDev nEms : String) (lDev lEms : List Entity) (d : List (String × List Entity))
    (mcc : List (String × List (String × PyVal))) (sims : List String)
    (cS cW : List PyVal) (rowD rowE : List (String × PyVal)) (s : SimState)
    (hd : d = [(nDev, lDev), (nEms, lEms)] ∨ d = [(nEms, lEms), (nDev, lDev)])
    (hne : (nDev == nEms) = false)
    (hEms : (strIn "ems" nEms || strIn "EMS" nEms) = true)
    (hDev : (strIn "ems" nDev || strIn "EMS" nDev) = false)
    (hsim : sims.contains "ems" = true)
    (hrowD : pyDictGet mcc nDev = Except.ok rowD)
    (hcS : pyDictGet rowD nEms = Except.ok (PyVal.vlist cS))
    (hrowE : pyDictGet mcc nEms = Except.ok rowE)
    (hcW : pyDictGet rowE nDev = Except.ok (PyVal.vlist cW))
    (hchkS : check_model_connect_config (PyVal.vlist cS) = Except.ok ())
    (hchkW : check_model_connect_config (PyVal.vlist cW) = Except.ok ())
    (hSne : cS ≠ []) (hlDev : lDev ≠ []) (hlEms : lEms ≠ []) :
    (connect_entities d mcc sims s).map SimState.edges =
      Except.ok (s.edges ++ allPairsEdges lDev lEms cS cW) := by
  have hmem : "ems" ∈ sims := by simpa using hsim
  have hne' : (nEms == nDev) = false :=
    beq_eq_false_iff_ne.mpr (Ne.symm (beq_eq_false_iff_ne.mp hne))
  rcases hd with rfl | rfl
  · have hroles : infer_roles sims nDev nEms = Except.ok (true, nDev, nEms) := by
      simp [infer_roles, hDev, hEms, simLookup, hmem]
    exact connect_entities_two_groups nDev nEms lDev lEms mcc sims true nDev nEms lDev lEms
      cS cW rowD rowE s hne hroles (pyDictGet_pair_fst nDev nEms lDev lEms)
      (pyDictGet_pair_snd nDev nEms lDev lEms hne) hrowD hcS hrowE hcW hchkS hchkW hSne
      hlDev hlEms
  · have hroles : infer_roles sims nEms nDev = Except.ok (true, nDev, nEms) := by
      simp [infer_roles, hEms, simLookup, hmem]
    exact connect_entities_two_groups nEms nDev lEms lDev mcc sims true nDev nEms lDev lEms
      cS cW rowD rowE s hne' hroles (pyDictGet_pair_snd nEms nDev lEms lDev hne')
      (pyDictGet_pair_fst nEms nDev lEms lDev) hrowD hcS hrowE hcW hchkS hchkW hSne
      hlDev hlEms

/-- C4, witness at the concrete `hems`/`pv` scenario, in the order where the
ems group comes first. -/
theorem c4_witness :
    (strIn "ems" "hems" || strIn "EMS" "hems") = true ∧
    (connect_entities [("hems", [HEMS0c]), ("pv", [PVdevc])] mccHemsPv ["ems"]
        SimState.empty).map SimState.edges =
      Except.ok ([] ++ allPairsEdges [PVdevc] [HEMS0c] [PyVal.vstr "p_out"] [PyVal.vstr "p_set"]) :=
  ⟨by decide,
    c4_device_controller_roles "pv" "hems" [PVdevc] [HEMS0c]
      [("hems", [HEMS0c]), ("pv", [PVdevc])] mccHemsPv ["ems"]
      [PyVal.vstr "p_out"] [PyVal.vstr "p_set"]
      [("hems", PyVal.vlist [PyVal.vstr "p_out"])]
      [("pv", PyVal.vlist [PyVal.vstr "p_set"])] SimState.empty
      (Or.inr rfl) (by decide) (by decide) (by decide) (by decide)
      rfl rfl rfl rfl rfl rfl (List.cons_ne_nil _ _) (List.cons_ne_nil _ _)
      (List.cons_ne_nil _ _)⟩

/-- First strong-side entity of the seed-key scenario. -/
def S1c : Entity := ⟨"S1", "S1", "dev", "DevSim"⟩

/-- Second strong-side entity of the seed-key scenario. -/
def S2c : Entity := ⟨"S2", "S2", "dev", "DevSim"⟩

/-- Weak-side entity of the seed-key scenario. -/
def W1c : Entity := ⟨"W1", "W1", "ctl", "CtlSim"⟩

/-- The trailing log statement's unbound loop variables, demonstrated: with a
non-empty strong configuration and an empty entity list on either side, the
double loop leaves a loop variable unbound and
`connect_entities_of_two_model_types` raises the unbound-variable error with
no edge created. -/
theorem connect_two_unbound_log_var :
    connect_entities_of_two_model_types [] [W1c]
      (PyVal.vlist [PyVal.vstr "a"]) (PyVal.vlist []) false SimState.empty =
      Except.error PyErr.nameError ∧
    connect_entities_of_two_model_types [S1c] []
      (PyVal.vlist [PyVal.vstr "a"]) (PyVal.vlist []) false SimState.empty =
      Except.error PyErr.nameError :=
  ⟨rfl, rfl⟩

/-- C5, counterexample.  With two strong-side entities `S1`, `S2` and one
weak-side entity `W1`, the weak edge `W1 → S1` is seeded
`{"b": {"S1": 0, "S2": 0}}`: the seed table of a single weak edge carries the
full ids of *all* strong-side entities, not exactly the paired strong entity's
id as the claim states. -/
theorem c5_counterexample :
    connect_entities_of_two_model_types [S1c, S2c] [W1c]
      (PyVal.vlist [PyVal.vstr "a"]) (PyVal.vlist [PyVal.vstr "b"]) false SimState.empty =
      Except.ok ⟨[⟨"S1", "W1", [PyVal.vstr "a"], false, []⟩,
        ⟨"W1", "S1", [PyVal.vstr "b"], true,
          [("b", [("S1", SeedVal.zero), ("S2", SeedVal.zero)])]⟩,
        ⟨"S2", "W1", [PyVal.vstr "a"], false, []⟩,
        ⟨"W1", "S2", [PyVal.vstr "b"], true,
          [("b", [("S1", SeedVal.zero), ("S2", SeedVal.zero)])]⟩],
        [], []⟩ := rfl

/-- C5, amended.  Every weak edge created by
`connect_entities_of_two_model_types` carries the `dict_init_data` seed table,
which maps every weak attribute (bare name or first tuple component) to zero
keyed by the full id of *every* entity of the strong-side list — the paired
strong entity's id is always among the keys, and is the only key exactly when
the strong-side list is a singleton.  Both entity lists must be non-empty:
with an empty list on either side the source instead raises an
unbound-variable error at the trailing log statement (and creates no edge, so
no seed exists to inspect). -/
theorem c5_seed_all_strong_ids
    (entity_list_strong entity_list_weak : List Entity)
    (cS cW : List PyVal) (sim_entities_weak : Bool) (s : SimState)
    (hchkS : check_model_connect_config (PyVal.vlist cS) = Except.ok ())
    (hchkW : check_model_connect_config (PyVal.vlist cW) = Except.ok ())
    (hSne : cS ≠ []) (hstrong : entity_list_strong ≠ [])
    (hweak : entity_list_weak ≠ []) :
    connect_entities_of_two_model_types entity_list_strong entity_list_weak
      (PyVal.vlist cS) (PyVal.vlist cW) sim_entities_weak s =
      Except.ok ⟨s.edges ++ allPairsEdges entity_list_strong entity_list_weak cS cW,
        s.controlled ++ allPairsCtrl entity_list_strong entity_list_weak sim_entities_weak,
        s.forecasted⟩ := by
  obtain ⟨c, cs, rfl⟩ : ∃ c cs, cS = c :: cs := by
    cases cS with
    | nil => exact absurd rfl hSne
    | cons c cs => exact ⟨c, cs, rfl⟩
  obtain ⟨e1, es, rfl⟩ : ∃ e1 es, entity_list_strong = e1 :: es := by
    cases entity_list_strong with
    | nil => exact absurd rfl hstrong
    | cons e1 es => exact ⟨e1, es, rfl⟩
  obtain ⟨e2, ws, rfl⟩ : ∃ e2 ws, entity_list_weak = e2 :: ws := by
    cases entity_list_weak with
    | nil => exact absurd rfl hweak
    | cons e2 ws => exact ⟨e2, ws, rfl⟩
  simp [connect_entities_of_two_model_types, hchkS, hchkW, pairLoops_eq]

/-- C5, witness for the amended theorem at the two-strong-entity scenario. -/
theorem c5_witness :
    check_model_connect_config (PyVal.vlist [PyVal.vstr "b"]) = Except.ok () ∧
    connect_entities_of_two_model_types [S1c, S2c] [W1c]
      (PyVal.vlist [PyVal.vstr "a"]) (PyVal.vlist [PyVal.vstr "b"]) false SimState.empty =
      Except.ok ⟨[] ++ allPairsEdges [S1c, S2c] [W1c] [PyVal.vstr "a"] [PyVal.vstr "b"],
        [] ++ allPairsCtrl [S1c, S2c] [W1c] false, []⟩ :=
  ⟨rfl,
    c5_seed_all_strong_ids [S1c, S2c] [W1c] [PyVal.vstr "a"] [PyVal.vstr "b"] false
      SimState.empty rfl rfl (List.cons_ne_nil _ _) (List.cons_ne_nil _ _)
      (List.cons_ne_nil _ _)⟩

/-- Grid entity of the concrete grid scenarios. -/
def GRIDc : Entity := ⟨"grid", "grid", "grid", "GridSim"⟩

/-- The only physical grid load of the concrete grid scenarios. -/
def LOADBc : Entity := ⟨"gcp_b", "gcp_b", "load", "GridSim"⟩

/-- Gcp configuration for `gcp_b`: no ems, no vehicles, no stations, one pv
device. -/
def gcpBc : List (String × GcpVal) :=
  [("ems", GcpVal.vstrOpt none), ("ev", GcpVal.vids []), ("cs", GcpVal.vids []),
   ("pv", GcpVal.vids ["PV_0"])]

/-- Entity collections of the concrete grid scenarios. -/
def dGridc : List (String × List Entity) := [("pv", [PVdevc])]

/-- Connection-attribute matrix of the concrete grid scenarios: the pv type
carries a `grid_load` mapping. -/
def mccGridc : List (String × List (String × PyVal)) :=
  [("pv", [("grid_load", PyVal.vlist [PyVal.vstr "p_mw"])])]

/-- C3, counterexample.  `connect_entities_in_grid` deletes the `"ems"` entry
of each processed gcp configuration dict in place, so it is not side-effect
free on its configuration input: a first run on the one-gcp configuration
succeeds and creates the pv-to-load edge, but a second run on the (mutated)
configuration returned by the first run raises `KeyError "ems"` instead of
succeeding. -/
theorem c3_counterexample :
    (connect_entities_in_grid [("gcp_b", gcpBc)] GRIDc [LOADBc] mccGridc dGridc []
        SimState.empty).2 =
      Except.ok ⟨[⟨"PV_0", "gcp_b", [PyVal.vstr "p_mw"], false, []⟩], [], []⟩ ∧
    (connect_entities_in_grid
        (connect_entities_in_grid [("gcp_b", gcpBc)] GRIDc [LOADBc] mccGridc dGridc []
          SimState.empty).1 GRIDc [LOADBc] mccGridc dGridc [] SimState.empty).2 =
      Except.error (PyErr.keyError "ems") :=
  ⟨rfl, rfl⟩

/-- C3, amended.  `connect_entities` is idempotent and side-effect-free on its
configuration inputs: a second run on the same entity dictionary and
connection matrix succeeds and appends exactly the same batch again, so the
resulting edge list and controlled-entity list are set-equal to the first
run's.  (`connect_entities_in_grid` is not: it deletes the `"ems"` entry of
each gcp configuration in place and a second run on the same configuration
object fails with a key error.) -/
theorem c3_connect_entities_idempotent (d : List (String × List Entity))
    (mcc : List (String × List (String × PyVal))) (sims : List String) (st : SimState)
    (h : connect_entities d mcc sims SimState.empty = Except.ok st) :
    connect_entities d mcc sims st =
      Except.ok ⟨st.edges ++ st.edges, st.controlled ++ st.controlled,
        st.forecasted ++ st.forecasted⟩ ∧
    (st.edges ++ st.edges) ⊆ st.edges ∧
    (st.controlled ++ st.controlled) ⊆ st.controlled := by
  rcases stepAdds_connect_entities d mcc sims with ⟨e, he⟩ | ⟨de, dc, df, hok⟩
  · have h1 : connect_entities d mcc sims SimState.empty = Except.error e :=
      he SimState.empty
    rw [h1] at h
    exact absurd h (by simp)
  · have h0 : connect_entities d mcc sims SimState.empty =
        Except.ok ⟨[] ++ de, [] ++ dc, [] ++ df⟩ := hok SimState.empty
    simp only [List.nil_append] at h0
    have hst := h0.symm.trans h
    injection hst with hst
    subst hst
    have h2 : connect_entities d mcc sims (⟨de, dc, df⟩ : SimState) =
        Except.ok ⟨de ++ de, dc ++ dc, df ++ df⟩ := hok ⟨de, dc, df⟩
    refine ⟨h2, ?_, ?_⟩ <;>
      exact List.append_subset.mpr ⟨List.Subset.refl _, List.Subset.refl _⟩

/-- The state produced by the first planner run of the idempotence witness. -/
def stEvCsRun : SimState :=
  ⟨[⟨"EV_0", "CS_0", [PyVal.vstr "p_avail"], false, []⟩,
    ⟨"CS_0", "EV_0", [PyVal.vstr "p_set"], true, [("p_set", [("EV_0", SeedVal.zero)])]⟩],
    [], []⟩

/-- C3, witness for the amended theorem at the concrete vehicle/station
scenario. -/
theorem c3_witness :
    connect_entities [("charging_station", [CS0c]), ("car", [EV0c])] mccEvCs []
      SimState.empty = Except.ok stEvCsRun ∧
    (connect_entities [("charging_station", [CS0c]), ("car", [EV0c])] mccEvCs [] stEvCsRun =
      Except.ok ⟨stEvCsRun.edges ++ stEvCsRun.edges,
        stEvCsRun.controlled ++ stEvCsRun.controlled,
        stEvCsRun.forecasted ++ stEvCsRun.forecasted⟩ ∧
      (stEvCsRun.edges ++ stEvCsRun.edges) ⊆ stEvCsRun.edges ∧
      (stEvCsRun.controlled ++ stEvCsRun.controlled) ⊆ stEvCsRun.controlled) :=
  ⟨rfl, c3_connect_entities_idempotent [("charging_station", [CS0c]), ("car", [EV0c])]
    mccEvCs [] stEvCsRun rfl⟩

theorem check_err_of_bad_elem (x : PyVal) (e0 : PyErr)
    (hbad : checkElem x = Except.error e0) :
    ∀ l : List PyVal, x ∈ l →
      ∃ e1, check_model_connect_config (PyVal.vlist l) = Except.error e1 := by
  intro l
  induction l with
  | nil => intro hx; cases hx
  | cons y ys ih =>
    intro hx
    cases hy : checkElem y with
    | error e => exact ⟨e, by simp [check_model_connect_config, exceptFold, hy]⟩
    | ok u =>
      rcases List.mem_cons.mp hx with rfl | hx'
      · exact absurd (hy.symm.trans hbad) (by simp)
      · obtain ⟨e1, h1⟩ := ih hx'
        have h1' : exceptFold (fun _ e => checkElem e) () ys = Except.error e1 := by
          simpa [check_model_connect_config] using h1
        exact ⟨e1, by simp [check_model_connect_config, exceptFold, hy, h1']⟩

/-- C6, amended.  Whenever the attribute-mapping input for either direction is
not a list, or is a list containing an element rejected by the per-element
check (an element that is neither a string nor a tuple, a tuple shorter than
two elements — an index error in the source — or a tuple whose first or second
element is not a string), `connect_entities_of_two_model_types` raises and
creates no edge; a tuple whose first two elements are strings passes the check
even when it has more than two elements. -/
theorem c6_fail_fast (entity_list_strong entity_list_weak : List Entity)
    (cfgS cfgW : PyVal) (l : List PyVal) (x : PyVal) (e0 : PyErr)
    (str0 : String) (z : Int) (m : List PyVal)
    (sim_entities_weak : Bool) (s : SimState)
    (hx : x ∈ l) (hbad : checkElem x = Except.error e0) :
    Except.isOk (connect_entities_of_two_model_types entity_list_strong entity_list_weak
      (PyVal.vlist l) cfgW sim_entities_weak s) = false ∧
    Except.isOk (connect_entities_of_two_model_types entity_list_strong entity_list_weak
      cfgS (PyVal.vlist l) sim_entities_weak s) = false ∧
    Except.isOk (connect_entities_of_two_model_types entity_list_strong entity_list_weak
      (PyVal.vstr str0) cfgW sim_entities_weak s) = false ∧
    Except.isOk (connect_entities_of_two_model_types entity_list_strong entity_list_weak
      (PyVal.vint z) cfgW sim_entities_weak s) = false ∧
    Except.isOk (connect_entities_of_two_model_types entity_list_strong entity_list_weak
      (PyVal.vtuple m) cfgW sim_entities_weak s) = false ∧
    Except.isOk (connect_entities_of_two_model_types entity_list_strong entity_list_weak
      cfgS (PyVal.vstr str0) sim_entities_weak s) = false ∧
    Except.isOk (connect_entities_of_two_model_types entity_list_strong entity_list_weak
      cfgS (PyVal.vint z) sim_entities_weak s) = false ∧
    Except.isOk (connect_entities_of_two_model_types entity_list_strong entity_list_weak
      cfgS (PyVal.vtuple m) sim_entities_weak s) = false := by
  obtain ⟨e1, h1⟩ := check_err_of_bad_elem x e0 hbad l hx
  have hnonlist : ∀ cfgW2 : PyVal, check_model_connect_config cfgW2 =
      Except.error PyErr.typeError →
      Except.isOk (connect_entities_of_two_model_types entity_list_strong entity_list_weak
        cfgS cfgW2 sim_entities_weak s) = false := by
    intro cfgW2 hW2
    cases h2 : check_model_connect_config cfgS with
    | error e =>
      simp [connect_entities_of_two_model_types, h2, Except.isOk, Except.toBool]
    | ok u =>
      simp [connect_entities_of_two_model_types, h2, hW2, Except.isOk, Except.toBool]
  refine ⟨?_, ?_, ?_, ?_, ?_, ?_, ?_, ?_⟩
  · simp [connect_entities_of_two_model_types, h1, Except.isOk, Except.toBool]
  · cases h2 : check_model_connect_config cfgS with
    | error e => simp [connect_entities_of_two_model_types, h2, Except.isOk, Except.toBool]
    | ok u => simp [connect_entities_of_two_model_types, h1, h2, Except.isOk, Except.toBool]
  · simp [connect_entities_of_two_model_types, check_model_connect_config, Except.isOk, Except.toBool]
  · simp [connect_entities_of_two_model_types, check_model_connect_config, Except.isOk, Except.toBool]
  · simp [connect_entities_of_two_model_types, check_model_connect_config, Except.isOk, Except.toBool]
  · exact hnonlist (PyVal.vstr str0) rfl
  · exact hnonlist (PyVal.vint z) rfl
  · exact hnonlist (PyVal.vtuple m) rfl

/-- C6, counterexample.  A three-element tuple of strings is neither a string
nor a two-element tuple of strings, yet `check_model_connect_config` accepts
it (only positions 0 and 1 are inspected) and
`connect_entities_of_two_model_types` creates the edge instead of raising the
connection-config type error. -/
theorem c6_counterexample :
    check_model_connect_config
      (PyVal.vlist [PyVal.vtuple [PyVal.vstr "a", PyVal.vstr "b", PyVal.vstr "c"]]) =
      Except.ok () ∧
    connect_entities_of_two_model_types [S1c] [W1c]
      (PyVal.vlist [PyVal.vtuple [PyVal.vstr "a", PyVal.vstr "b", PyVal.vstr "c"]])
      (PyVal.vlist []) false SimState.empty =
      Except.ok ⟨[⟨"S1", "W1",
        [PyVal.vtuple [PyVal.vstr "a", PyVal.vstr "b", PyVal.vstr "c"]], false, []⟩],
        [], []⟩ :=
  ⟨rfl, rfl⟩

/-- C6, witness for the amended theorem: an integer element in the strong list
makes the planner fail with no edge created, and so does a non-list weak
configuration next to a well-formed strong configuration. -/
theorem c6_witness :
    checkElem (PyVal.vint 0) = Except.error PyErr.typeError ∧
    Except.isOk (connect_entities_of_two_model_types [S1c] [W1c]
      (PyVal.vlist [PyVal.vint 0]) (PyVal.vlist []) false SimState.empty) = false ∧
    Except.isOk (connect_entities_of_two_model_types [S1c] [W1c]
      (PyVal.vlist [PyVal.vstr "a"]) (PyVal.vint 0) false SimState.empty) = false :=
  ⟨rfl,
    (c6_fail_fast [S1c] [W1c] (PyVal.vlist []) (PyVal.vlist []) [PyVal.vint 0]
      (PyVal.vint 0) PyErr.typeError "x" 0 [] false SimState.empty
      (List.mem_cons_self _ _) rfl).1,
    (c6_fail_fast [S1c] [W1c] (PyVal.vlist [PyVal.vstr "a"]) (PyVal.vlist [])
      [PyVal.vint 0] (PyVal.vint 0) PyErr.typeError "x" 0 [] false SimState.empty
      (List.mem_cons_self _ _) rfl).2.2.2.2.2.2.1⟩

/-- The edges created by `connect_to_forecast`: for every entity of every
ems-named group, the strong `forecast_request` edge and the seeded weak
`forecast` edge. -/
def forecastEdges (forecast : Entity) (dict_entities : List (String × List Entity)) :
    List Edge :=
  dict_entities.flatMap (fun group =>
    if strIn "ems" (pyLower group.1) then
      group.2.flatMap (fun entity =>
        [⟨entity.full_id, forecast.full_id, [PyVal.vstr "forecast_request"], false, []⟩,
         ⟨forecast.full_id, entity.full_id, [PyVal.vstr "forecast"], true,
           [("forecast", [(forecast.full_id, SeedVal.emptyDict)])]⟩])
    else [])

/-- The forecast-subject registrations created by `connect_to_forecast`: every
entity of every non-ems group, keyed by the forecast entity. -/
def forecastSubjects (forecast : Entity) (dict_entities : List (String × List Entity)) :
    List (String × String) :=
  dict_entities.flatMap (fun group =>
    if strIn "ems" (pyLower group.1) then []
    else group.2.map (fun entity => (forecast.eid, entity.full_id)))

theorem forecastStep_fold_ems (sims : List String) (forecast : Entity) (n : String)
    (hems : strIn "ems" (pyLower n) = true) (ents : List Entity) (s : SimState) :
    exceptFold (forecastStep sims forecast n) s ents =
      Except.ok ⟨s.edges ++ ents.flatMap (fun entity =>
        [⟨entity.full_id, forecast.full_id, [PyVal.vstr "forecast_request"], false, []⟩,
         ⟨forecast.full_id, entity.full_id, [PyVal.vstr "forecast"], true,
           [("forecast", [(forecast.full_id, SeedVal.emptyDict)])]⟩]),
        s.controlled, s.forecasted⟩ := by
  induction ents generalizing s with
  | nil => simp [exceptFold]
  | cons e es ih => simp [exceptFold, forecastStep, hems, ih, List.append_assoc]

theorem forecastStep_fold_dev (sims : List String) (forecast : Entity) (n : String)
    (hems : strIn "ems" (pyLower n) = false) (hc : sims.contains n = true)
    (ents : List Entity) (s : SimState) :
    exceptFold (forecastStep sims forecast n) s ents =
      Except.ok ⟨s.edges, s.controlled,
        s.forecasted ++ ents.map (fun entity => (forecast.eid, entity.full_id))⟩ := by
  have hmem : n ∈ sims := by simpa using hc
  induction ents generalizing s with
  | nil => simp [exceptFold]
  | cons e es ih => simp [exceptFold, forecastStep, hems, simLookup, hmem, ih, List.append_assoc]

/-- C7.  When every non-ems group name is registered in `dict_simulators`,
`connect_to_forecast` succeeds and appends exactly `forecastEdges` (for every
entity of an ems-named group, one strong `forecast_request` edge to the
forecast entity and one weak `forecast` edge back seeded with the empty dict
keyed by the forecast entity's full id) and `forecastSubjects` (every other
entity registered as a forecast subject). -/
theorem c7_forecast_edges (dict_entities : List (String × List Entity))
    (sims : List String) (forecast : Entity) (s : SimState)
    (h : dict_entities.all
      (fun group => strIn "ems" (pyLower group.1) || sims.contains group.1) = true) :
    connect_to_forecast dict_entities sims forecast s =
      Except.ok ⟨s.edges ++ forecastEdges forecast dict_entities, s.controlled,
        s.forecasted ++ forecastSubjects forecast dict_entities⟩ := by
  induction dict_entities generalizing s with
  | nil => simp [connect_to_forecast, forecastEdges, forecastSubjects, exceptFold]
  | cons g gs ih =>
    rw [List.all_cons, Bool.and_eq_true] at h
    by_cases hems : strIn "ems" (pyLower g.1) = true
    · have hgrp : forecastGroupStep sims forecast s g =
          Except.ok ⟨s.edges ++ g.2.flatMap (fun entity =>
            [⟨entity.full_id, forecast.full_id, [PyVal.vstr "forecast_request"], false, []⟩,
             ⟨forecast.full_id, entity.full_id, [PyVal.vstr "forecast"], true,
               [("forecast", [(forecast.full_id, SeedVal.emptyDict)])]⟩]),
            s.controlled, s.forecasted⟩ :=
        forecastStep_fold_ems sims forecast g.1 hems g.2 s
      have hrec := ih ⟨s.edges ++ g.2.flatMap (fun entity =>
        [⟨entity.full_id, forecast.full_id, [PyVal.vstr "forecast_request"], false, []⟩,
         ⟨forecast.full_id, entity.full_id, [PyVal.vstr "forecast"], true,
           [("forecast", [(forecast.full_id, SeedVal.emptyDict)])]⟩]),
        s.controlled, s.forecasted⟩ h.2
      simp only [connect_to_forecast] at hrec
      simp only [connect_to_forecast, exceptFold, hgrp, hrec]
      simp [forecastEdges, forecastSubjects, hems, List.append_assoc]
    · rw [Bool.not_eq_true] at hems
      have hc : sims.contains g.1 = true := by
        rcases Bool.or_eq_true_iff.mp h.1 with h' | h'
        · exact absurd h' (by simp [hems])
        · exact h'
      have hgrp : forecastGroupStep sims forecast s g =
          Except.ok ⟨s.edges, s.controlled,
            s.forecasted ++ g.2.map (fun entity => (forecast.eid, entity.full_id))⟩ :=
        forecastStep_fold_dev sims forecast g.1 hems hc g.2 s
      have hrec := ih ⟨s.edges, s.controlled,
        s.forecasted ++ g.2.map (fun entity => (forecast.eid, entity.full_id))⟩ h.2
      simp only [connect_to_forecast] at hrec
      simp only [connect_to_forecast, exceptFold, hgrp, hrec]
      simp [forecastEdges, forecastSubjects, hems, List.append_assoc]

/-- Forecast provider entity of the concrete forecast scenario. -/
def FCc : Entity := ⟨"FC_0", "FSim.FC_0", "forecast", "FSim"⟩

/-- C7, witness at a concrete dictionary with one ems group and one device
group. -/
theorem c7_witness :
    ([("hems", [HEMS0c]), ("pv", [PVdevc])].all
      (fun group => strIn "ems" (pyLower group.1) || ["pv"].contains group.1)) = true ∧
    connect_to_forecast [("hems", [HEMS0c]), ("pv", [PVdevc])] ["pv"] FCc SimState.empty =
      Except.ok ⟨[] ++ forecastEdges FCc [("hems", [HEMS0c]), ("pv", [PVdevc])], [],
        [] ++ forecastSubjects FCc [("hems", [HEMS0c]), ("pv", [PVdevc])]⟩ :=
  ⟨by decide,
    c7_forecast_edges [("hems", [HEMS0c]), ("pv", [PVdevc])] ["pv"] FCc SimState.empty
      (by decide)⟩

/-- Is this embedded Python value a list? -/
def isPyList : PyVal → Bool
  | PyVal.vlist _ => true
  | _ => false

/-- C8.  `create_entities_of_model` raises `KeyError` (the unknown-model-type
error) when the factory has no model of the given name, raises `TypeError`
(the invalid-shape error) when the init values are not a list, and returns the
empty list on an empty init list — for every `create` call of the factory, so
the external create call is never consulted in the empty case. -/
theorem c8_create_entities_checks (model_names : List String)
    (create_call : Nat → List PyVal → List Entity) (model_name : String)
    (init_vals : PyVal) :
    (model_names.contains model_name = false →
      create_entities_of_model ⟨model_names, create_call⟩ model_name init_vals =
        Except.error (PyErr.keyError model_name)) ∧
    (model_names.contains model_name = true → isPyList init_vals = false →
      create_entities_of_model ⟨model_names, create_call⟩ model_name init_vals =
        Except.error PyErr.typeError) ∧
    (model_names.contains model_name = true →
      create_entities_of_model ⟨model_names, create_call⟩ model_name (PyVal.vlist []) =
        Except.ok []) := by
  refine ⟨fun h => ?_, fun h1 h2 => ?_, fun h1 => ?_⟩
  · have h' : model_name ∉ model_names := by simpa using h
    simp [create_entities_of_model, h']
  · have h1' : model_name ∈ model_names := by simpa using h1
    cases init_vals <;> simp_all [create_entities_of_model, isPyList]
  · have h1' : model_name ∈ model_names := by simpa using h1
    simp [create_entities_of_model, h1']

/-- C8, witness: a factory knowing only `pv` rejects an unknown model name
with `KeyError`, rejects non-list init values with `TypeError`, and creates
zero entities from an empty init list. -/
theorem c8_witness :
    (["pv"].contains "bss" = false ∧
      create_entities_of_model ⟨["pv"], fun _ _ => [PVdevc]⟩ "bss" (PyVal.vlist []) =
        Except.error (PyErr.keyError "bss")) ∧
    (isPyList (PyVal.vint 3) = false ∧
      create_entities_of_model ⟨["pv"], fun _ _ => [PVdevc]⟩ "pv" (PyVal.vint 3) =
        Except.error PyErr.typeError) ∧
    create_entities_of_model ⟨["pv"], fun _ _ => [PVdevc]⟩ "pv" (PyVal.vlist []) =
      Except.ok [] :=
  ⟨⟨by decide, (c8_create_entities_checks ["pv"] (fun _ _ => [PVdevc]) "bss"
      (PyVal.vlist [])).1 (by decide)⟩,
   ⟨rfl, (c8_create_entities_checks ["pv"] (fun _ _ => [PVdevc]) "pv"
      (PyVal.vint 3)).2.1 (by decide) rfl⟩,
   (c8_create_entities_checks ["pv"] (fun _ _ => [PVdevc]) "pv"
      (PyVal.vlist [])).2.2 (by decide)⟩

theorem mem_enumFrom_of_mem {α : Type} (a : α) :
    ∀ (l : List α) (n : Nat), a ∈ l → ∃ i, (i, a) ∈ List.enumFrom n l := by
  intro l
  induction l with
  | nil => intro n h; cases h
  | cons x xs ih =>
    intro n h
    rcases List.mem_cons.mp h with rfl | h'
    · exact ⟨n, by simp [List.enumFrom]⟩
    · obtain ⟨i, hi⟩ := ih (n + 1) h'
      exact ⟨i, by simp [List.enumFrom, List.mem_cons]; exact Or.inr (by simpa using hi)⟩

theorem exceptFold_reach {α : Type} {f : SimState → α → Except PyErr SimState}
    (hf : ∀ a, StepAdds (fun s => f s a)) :
    ∀ (l : List α) (s s'' : SimState) (x : α), x ∈ l →
      exceptFold f s l = Except.ok s'' →
      ∃ s1 t, f s1 x = Except.ok t ∧ ∀ z ∈ t.controlled, z ∈ s''.controlled := by
  intro l
  induction l with
  | nil => intro s s'' x hx; cases hx
  | cons y ys ih =>
    intro s s'' x hx hok
    cases hy : f s y with
    | error e =>
      simp only [exceptFold, hy] at hok
      cases hok
    | ok t1 =>
      have hok' : exceptFold f t1 ys = Except.ok s'' := by
        simpa [exceptFold, hy] using hok
      rcases List.mem_cons.mp hx with rfl | hx'
      · refine ⟨s, t1, hy, fun z hz => ?_⟩
        exact stepAdds_mem_controlled (stepAdds_exceptFold hf ys) hok' hz
      · exact ih t1 s'' x hx' hok'

theorem emsEvBlock_adds (d : List (String × List Entity)) (sims : List String)
    (n : String) (s2 t : SimState) (ems_list ev_list : List Entity)
    (ems_ent ev_ent : Entity)
    (hems : (strIn "ems" n || strIn "EMS" n) = true)
    (hl : pyDictGet d n = Except.ok ems_list)
    (hEV : ((d.map Prod.fst).contains "EV") = true)
    (hevl : pyDictGet d "EV" = Except.ok ev_list)
    (hme : ems_ent ∈ ems_list) (hev : ev_ent ∈ ev_list)
    (hok : emsEvBlock d sims n s2 = Except.ok t) :
    (ems_ent.eid, ev_ent.eid) ∈ t.controlled.map (fun z => (z.1, z.2.1)) := by
  have hfold : exceptFold (emsRegStep d sims) s2 ems_list = Except.ok t := by
    simpa [emsEvBlock, hems, hl] using hok
  obtain ⟨s1, u, hstep, hext⟩ := exceptFold_reach (fun a => stepAdds_emsRegStep d sims a)
    ems_list s2 t ems_ent hme hfold
  have hfold2 : exceptFold (evRegStep sims ev_list ems_ent.eid) s1 ev_list =
      Except.ok u := by
    have hx := hstep
    simp only [emsRegStep] at hx
    rw [if_pos hEV, hevl] at hx
    exact hx
  obtain ⟨s0, v, hstep2, hext2⟩ := exceptFold_reach
    (fun a => stepAdds_evRegStep sims ev_list ems_ent.eid a) ev_list s1 u ev_ent hev hfold2
  obtain ⟨e, dsc, hge, heid⟩ := get_entity_by_id_mem ev_list ev_ent hev
  cases hs : simLookup sims "ems" with
  | error e2 => simp [evRegStep, hge, hs] at hstep2
  | ok uu =>
    have hv : v = { s0 with controlled := s0.controlled ++ [(ems_ent.eid, e.eid, dsc)] } := by
      simp [evRegStep, hge, hs] at hstep2
      exact hstep2.symm
    have hzmem : (ems_ent.eid, e.eid, dsc) ∈ v.controlled := by
      rw [hv]; simp
    have hzt : (ems_ent.eid, e.eid, dsc) ∈ t.controlled := hext _ (hext2 _ hzmem)
    have hmap := List.mem_map_of_mem (fun z => (z.1, z.2.1)) hzt
    simpa [heid] using hmap

/-- C9.  After a successful `connect_entities` run, for every controller
entity in an ems-named type group, every entity of the `"EV"` collection (when
that collection exists) has been registered as a controlled entity of that
controller — unconditionally, regardless of the attribute mappings between the
groups. -/
theorem c9_ev_registration (d : List (String × List Entity))
    (mcc : List (String × List (String × PyVal))) (sims : List String)
    (s st : SimState) (emsName : String) (ems_list ev_list : List Entity)
    (ems_ent ev_ent : Entity)
    (h : connect_entities d mcc sims s = Except.ok st)
    (hk : emsName ∈ d.map Prod.fst)
    (hems : (strIn "ems" emsName || strIn "EMS" emsName) = true)
    (hl : pyDictGet d emsName = Except.ok ems_list)
    (hEV : ((d.map Prod.fst).contains "EV") = true)
    (hevl : pyDictGet d "EV" = Except.ok ev_list)
    (hme : ems_ent ∈ ems_list) (hev : ev_ent ∈ ev_list) :
    (ems_ent.eid, ev_ent.eid) ∈ st.controlled.map (fun z => (z.1, z.2.1)) := by
  obtain ⟨i, hi⟩ := mem_enumFrom_of_mem emsName (d.map Prod.fst) 0 hk
  have h' : exceptFold (connectOuterStep d mcc sims ((d.map Prod.fst).enum)) s
      ((d.map Prod.fst).enum) = Except.ok st := by
    simpa [connect_entities] using h
  obtain ⟨s1, t, hstep, hext⟩ := exceptFold_reach
    (fun a => stepAdds_connectOuterStep d mcc sims ((d.map Prod.fst).enum) a)
    ((d.map Prod.fst).enum) s st (i, emsName) hi h'
  cases hmid : exceptFold (connectInnerStepIdx d mcc sims (i, emsName)) s1
      ((d.map Prod.fst).enum) with
  | error e => simp [connectOuterStep, hmid] at hstep
  | ok s2 =>
    have hblk : emsEvBlock d sims emsName s2 = Except.ok t := by
      simpa [connectOuterStep, hmid] using hstep
    have hpair := emsEvBlock_adds d sims emsName s2 t ems_list ev_list ems_ent ev_ent
      hems hl hEV hevl hme hev hblk
    obtain ⟨z, hz, hzp⟩ := List.mem_map.mp hpair
    exact hzp ▸ List.mem_map_of_mem _ (hext z hz)

/-- EV-typed entity of the concrete controller/EV scenario. -/
def EVtypec : Entity := ⟨"EV_0", "EV_0", "EV", "EVSim"⟩

/-- Connection-attribute matrix of the concrete controller/EV scenario. -/
def mccHemsEv : List (String × List (String × PyVal)) :=
  [("hems", [("EV", PyVal.vlist [PyVal.vstr "p_set"])]),
   ("EV", [("hems", PyVal.vlist [PyVal.vstr "p_out"])])]

/-- The state produced by the concrete controller/EV run: the EV is registered
twice (once by the connection loop, once by the ems/EV block). -/
def stHemsEv : SimState :=
  ⟨[⟨"EV_0", "HEMS_0", [PyVal.vstr "p_out"], false, []⟩,
    ⟨"HEMS_0", "EV_0", [PyVal.vstr "p_set"], true, [("p_set", [("EV_0", SeedVal.zero)])]⟩],
   [("HEMS_0", "EV_0", ⟨"EV_0", "EV_0", "EV"⟩), ("HEMS_0", "EV_0", ⟨"EV_0", "EV_0", "EV"⟩)],
   []⟩

/-- C9, witness at the concrete `hems`/`EV` scenario. -/
theorem c9_witness :
    connect_entities [("hems", [HEMS0c]), ("EV", [EVtypec])] mccHemsEv ["ems"]
      SimState.empty = Except.ok stHemsEv ∧
    ("HEMS_0", "EV_0") ∈ stHemsEv.controlled.map (fun z => (z.1, z.2.1)) :=
  ⟨rfl,
    c9_ev_registration [("hems", [HEMS0c]), ("EV", [EVtypec])] mccHemsEv ["ems"]
      SimState.empty stHemsEv "hems" [HEMS0c] [EVtypec] HEMS0c EVtypec
      rfl (by decide) (by decide) rfl (by decide) rfl
      (List.mem_cons_self _ _) (List.mem_cons_self _ _)⟩

/-- C10.  For a call of `connect_entities_in_grid` with at least one configured
grid connection point whose preliminary steps succeed (the `"ems"` entry is
present, all referenced entities resolve, the vehicle/charging-station check
passes, no `"GridEMS"` collection) and an empty `grid_loads` list, the lookup
loop never binds its loop variable, and the call terminates with the unbound
name error instead of treating the unmatched gcp as a skipped no-op. -/
theorem c10_unbound_loop_var
    (gcp_id : String) (gcp_dict : List (String × GcpVal)) (emsEntry : String × GcpVal)
    (rest : List (String × List (String × GcpVal)))
    (dict_entities : List (String × List Entity))
    (mcc : List (String × List (String × PyVal))) (sims : List String)
    (grid : Entity) (s : SimState) (dgcp : List (String × List Entity))
    (hGridEms : ((dict_entities.map Prod.fst).contains "GridEMS") = false)
    (hems : gcp_dict.find? (fun p => p.1 == "ems") = some emsEntry)
    (hres : resolve_gcp_entities dict_entities ((del_key gcp_dict "ems").map Prod.snd) =
      Except.ok dgcp)
    (hchk : ev_cs_check (del_key gcp_dict "ems") = Except.ok ()) :
    (connect_entities_in_grid ((gcp_id, gcp_dict) :: rest) grid [] mcc
      dict_entities sims s).2 = Except.error PyErr.nameError := by
  have hg : "GridEMS" ∉ dict_entities.map Prod.fst := by simpa using hGridEms
  have hproc : process_gcp dict_entities mcc sims [] gcp_id gcp_dict s =
      (del_key gcp_dict "ems", GcpOutcome.err PyErr.nameError) := by
    simp [process_gcp, hems, hres, hchk, find_gcp_load, List.find?, List.getLast?]
  simp [connect_entities_in_grid, hg, grid_gcp_loop, hproc]

/-- C10, witness at the concrete one-gcp configuration with an empty grid-load
list. -/
theorem c10_witness :
    gcpBc.find? (fun p => p.1 == "ems") = some ("ems", GcpVal.vstrOpt none) ∧
    (connect_entities_in_grid [("gcp_b", gcpBc)] GRIDc [] mccGridc dGridc []
      SimState.empty).2 = Except.error PyErr.nameError :=
  ⟨rfl,
    c10_unbound_loop_var "gcp_b" gcpBc ("ems", GcpVal.vstrOpt none) [] dGridc mccGridc []
      GRIDc SimState.empty [("pv", [PVdevc])] rfl rfl rfl rfl⟩

/-- Gcp configuration for `gcp_a`: no ems and no devices at all. -/
def gcpAc : List (String × GcpVal) :=
  [("ems", GcpVal.vstrOpt none), ("ev", GcpVal.vids []), ("cs", GcpVal.vids [])]

/-- C2.  With two configured gcps `gcp_a`, `gcp_b` and a grid that only has
the load `gcp_b`, the unmatched `gcp_a` triggers the early `return` of the
source: the call succeeds with *no* edge created and `gcp_b` left unprocessed
(its `"ems"` entry is still present in the returned configuration), even
though processing `gcp_b` alone would create its pv-to-load edge.  This
contradicts the claim that the unmatched gcp is skipped while all remaining
gcps are still bound. -/
theorem c2_early_return_eval :
    connect_entities_in_grid [("gcp_a", gcpAc), ("gcp_b", gcpBc)] GRIDc [LOADBc]
      mccGridc dGridc [] SimState.empty =
      ([("gcp_a", [("ev", GcpVal.vids []), ("cs", GcpVal.vids [])]), ("gcp_b", gcpBc)],
        Except.ok ⟨[], [], []⟩) ∧
    (connect_entities_in_grid [("gcp_b", gcpBc)] GRIDc [LOADBc] mccGridc dGridc []
      SimState.empty).2 =
      Except.ok ⟨[⟨"PV_0", "gcp_b", [PyVal.vstr "p_mw"], false, []⟩], [], []⟩ :=
  ⟨rfl, rfl⟩
